import Mathlib

/-!
# Verification of the `vm` emulator core

A shallow embedding of the repository's two core modules:

* `src/memory.rs` — the block-mapped memory controller with RAM/ROM devices;
* `src/cpu.rs` — the CPU execution engine (MOV/ADC/SBC/STP/RST/NOP, the
  addressing-mode matrix, flags, reset and interrupt handling).

Machine integers are embedded as `Nat` with explicit `% 2^w` masking at the
points where the Rust types (`u8`, `u16`) truncate.  Arithmetic on `u16`
values (`program_counter + 2`, `imm16 + X`, `Y + X`, …) is embedded as
addition modulo `0x10000`, matching Rust's release-profile wrapping
semantics (and §4.5 of the design document, which mandates wrapping).

Fallible operations return `Option`/`Except`.  A `none` result models a
Rust panic: the only panic sources in these modules are the fixed-size
block-table index (`self.blocks[address / MAP_BLOCK_SIZE]` with 16 slots),
slice indexing in `poke_bytes`, and the `usize` subtraction
`address - offset` (unreachable for well-formed controllers).
-/

namespace VM

/-- `ADDRESS_BUS_WIDTH` from `cpu.rs`. -/
def ADDRESS_BUS_WIDTH : Nat := 16

/-- `ADDRESS_SPACE = 2^ADDRESS_BUS_WIDTH` from `memory.rs`. -/
def ADDRESS_SPACE : Nat := 2 ^ ADDRESS_BUS_WIDTH

/-- `MAP_BLOCK_SIZE` from `memory.rs` (4 KiB). -/
def MAP_BLOCK_SIZE : Nat := 0x1000

/-- `MAP_BLOCKS = ADDRESS_SPACE / MAP_BLOCK_SIZE = 16` from `memory.rs`. -/
def MAP_BLOCKS : Nat := ADDRESS_SPACE / MAP_BLOCK_SIZE

/-- The two concrete `MappedDevice` implementations in `memory.rs`.
`RAM` and `ROM` are byte-backed stores with identical read paths; they
differ only in `write_8`/`write_16`/`reset`.  We embed both as one record
with a kind tag; `memory` is the byte store (`Box<[u8]>`, values `< 0x100`
by representation) and `size` its length. -/
inductive DeviceKind
  | ram
  | rom
deriving DecidableEq

/-- A concrete mapped device (`RAM` or `ROM` from `memory.rs`). -/
structure Device where
  kind : DeviceKind
  memory : Nat → Nat
  size : Nat

/-- `RAM::read_8` / `ROM::read_8` (identical bodies): out-of-range reads
yield `0x00`. -/
def Device.read_8 (d : Device) (address : Nat) : Nat :=
  if address ≥ d.size then 0x00 else d.memory address

/-- `RAM::read_16` / `ROM::read_16` (identical bodies): little-endian
combination, each byte guarded by the size check. -/
def Device.read_16 (d : Device) (address : Nat) : Nat :=
  (if address < d.size then d.memory address else 0) |||
    (if address + 1 < d.size then d.memory (address + 1) <<< 8 else 0)

/-- `RAM::write_8` stores the byte if in range; `ROM::write_8` is a no-op.
The stored value is masked to a byte (`value: u8` in the source). -/
def Device.write_8 (d : Device) (address value : Nat) : Device :=
  match d.kind with
  | .ram =>
    if address ≥ d.size then d
    else { d with memory := fun j => if j = address then value % 0x100 else d.memory j }
  | .rom => d

/-- `RAM::write_16` stores the low byte (`value as u8`) then the high byte
(`(value >> 8) as u8`), each guarded by the size check; `ROM::write_16` is
a no-op. -/
def Device.write_16 (d : Device) (address value : Nat) : Device :=
  match d.kind with
  | .ram =>
    let d1 :=
      if address < d.size then
        { d with memory := fun j => if j = address then value % 0x100 else d.memory j }
      else d
    if address + 1 < d1.size then
      { d1 with memory := fun j => if j = address + 1 then value / 0x100 % 0x100 else d1.memory j }
    else d1
  | .rom => d

/-- `RAM::reset` zero-fills the store; `ROM::reset` is a no-op. -/
def Device.reset (d : Device) : Device :=
  match d.kind with
  | .ram => { d with memory := fun _ => 0x00 }
  | .rom => d

/-- `poke_bytes` (identical for RAM and ROM): writes each byte of `bytes`
at consecutive addresses.  The Rust slice index panics when an address
reaches the end of the store, embedded as `none`. -/
def Device.poke_bytes (d : Device) (address : Nat) : List Nat → Option Device
  | [] => some d
  | byte :: rest =>
    if address < d.size then
      Device.poke_bytes
        { d with memory := fun j => if j = address then byte % 0x100 else d.memory j }
        (address + 1) rest
    else none

/-- Representation invariant of `Box<[u8]>`: every in-range cell holds a
byte. -/
def Device.WF (d : Device) : Prop :=
  ∀ i, i < d.size → d.memory i < 0x100

/-- `Mapping` from `memory.rs`. -/
structure Mapping where
  offset : Nat
  device : Device

/-- `MemoryController` from `memory.rs`: a 16-slot block table (embedded
as a length-16 list) and the mapping vector. -/
structure MemoryController where
  blocks : List (Option Nat)
  mappings : List Mapping

/-- `MemoryController::new()`. -/
def MemoryController.new : MemoryController :=
  { blocks := List.replicate 16 none, mappings := [] }

/-- Result of `map_device`: Rust's `Result<usize, String>` plus the panic
outcome of the out-of-bounds block-table index. -/
inductive MapOutcome
  | panicked
  | failed (msg : String)
  | ok (mc : MemoryController) (index : Nat)

/-- Whether a `MapOutcome` is the panic outcome. -/
def MapOutcome.isPanic : MapOutcome → Bool
  | .panicked => true
  | _ => false

/-- The returned handle of a successful `map_device`. -/
def MapOutcome.index? : MapOutcome → Option Nat
  | .ok _ i => some i
  | _ => none

/-- The post-state of a successful `map_device`. -/
def MapOutcome.controller? : MapOutcome → Option MemoryController
  | .ok mc _ => some mc
  | _ => none

/-- The overlap-scan loop of `map_device`
(`for block in first_block..first_block + blocks`): `none` models the
panic on an out-of-bounds index, `some (some b)` an occupied block `b`,
`some none` a fully free range. -/
def blocksFreeScan (blocks : List (Option Nat)) (first : Nat) : Nat → Option (Option Nat)
  | 0 => some none
  | Nat.succ n =>
    match blocks[first]? with
    | none => none
    | some (some _) => some (some first)
    | some none => blocksFreeScan blocks (first + 1) n

/-- The second loop of `map_device`
(`for block in ... { self.blocks[block] = Some(mapping_index) }`).
It runs over the same range the scan already bounds-checked. -/
def fillBlocks (blocks : List (Option Nat)) (first index : Nat) : Nat → List (Option Nat)
  | 0 => blocks
  | Nat.succ n => fillBlocks (blocks.set first (some index)) (first + 1) index n

/-- `MemoryController::map_device`. -/
def MemoryController.map_device (mc : MemoryController) (first_block blockCount : Nat)
    (device : Device) : MapOutcome :=
  match blocksFreeScan mc.blocks first_block blockCount with
  | none => .panicked
  | some (some _) => .failed "Block is already mapped to another device"
  | some none =>
    let mappings := mc.mappings ++ [{ offset := first_block * MAP_BLOCK_SIZE, device := device }]
    let mapping_index := mappings.length - 1
    let blocks := fillBlocks mc.blocks first_block mapping_index blockCount
    .ok { blocks := blocks, mappings := mappings } mapping_index

/-- `Vec::swap_remove(i)`: replace element `i` with the last element and
pop.  Only called with `i < l.length`. -/
def swapRemove (l : List Mapping) (i : Nat) : List Mapping :=
  match l.getLast? with
  | none => l
  | some last => (l.set i last).dropLast

/-- `MemoryController::unmap_device`. -/
def MemoryController.unmap_device (mc : MemoryController) (mapping_index : Nat) :
    Except String MemoryController :=
  if mapping_index ≥ mc.mappings.length then
    .error "Index is out-of-bounds"
  else
    let mappings := swapRemove mc.mappings mapping_index
    let last_mapping_index := mappings.length
    let blocks := mc.blocks.map (fun block =>
      let block := if block = some mapping_index then none else block
      if block = some last_mapping_index then some mapping_index else block)
    .ok { blocks := blocks, mappings := mappings }

/-- `MemoryController::get_device`. -/
def MemoryController.get_device (mc : MemoryController) (mapping_index : Nat) :
    Except String Device :=
  if h : mapping_index < mc.mappings.length then
    .ok (mc.mappings.get ⟨mapping_index, h⟩).device
  else
    .error "Index is out-of-bounds"

/-- `MemoryController::read_8`.  `none` models the panic on a block index
`≥ 16` (or, for ill-formed controllers, a bad mapping index / `usize`
underflow of `address - offset`). -/
def MemoryController.read_8 (mc : MemoryController) (address : Nat) : Option Nat :=
  match mc.blocks[address / MAP_BLOCK_SIZE]? with
  | none => none
  | some none => some 0x00
  | some (some mapping_index) =>
    match mc.mappings[mapping_index]? with
    | none => none
    | some mapping =>
      if address < mapping.offset then none
      else some (mapping.device.read_8 (address - mapping.offset))

/-- `MemoryController::read_16`: dispatches the whole 16-bit read to the
single device named by the block of `address`. -/
def MemoryController.read_16 (mc : MemoryController) (address : Nat) : Option Nat :=
  match mc.blocks[address / MAP_BLOCK_SIZE]? with
  | none => none
  | some none => some 0x0000
  | some (some mapping_index) =>
    match mc.mappings[mapping_index]? with
    | none => none
    | some mapping =>
      if address < mapping.offset then none
      else some (mapping.device.read_16 (address - mapping.offset))

/-- `MemoryController::write_8`. -/
def MemoryController.write_8 (mc : MemoryController) (address value : Nat) :
    Option MemoryController :=
  match mc.blocks[address / MAP_BLOCK_SIZE]? with
  | none => none
  | some none => some mc
  | some (some mapping_index) =>
    match mc.mappings[mapping_index]? with
    | none => none
    | some mapping =>
      if address < mapping.offset then none
      else
        let updated : Mapping :=
          { offset := mapping.offset
            device := mapping.device.write_8 (address - mapping.offset) value }
        some { mc with mappings := mc.mappings.set mapping_index updated }

/-- `MemoryController::write_16`: dispatches the whole 16-bit write to the
single device named by the block of `address`. -/
def MemoryController.write_16 (mc : MemoryController) (address value : Nat) :
    Option MemoryController :=
  match mc.blocks[address / MAP_BLOCK_SIZE]? with
  | none => none
  | some none => some mc
  | some (some mapping_index) =>
    match mc.mappings[mapping_index]? with
    | none => none
    | some mapping =>
      if address < mapping.offset then none
      else
        let updated : Mapping :=
          { offset := mapping.offset
            device := mapping.device.write_16 (address - mapping.offset) value }
        some { mc with mappings := mc.mappings.set mapping_index updated }

/-- `MemoryController::reset`: resets every mapped device (exactly once
each, in order). -/
def MemoryController.reset (mc : MemoryController) : MemoryController :=
  { mc with mappings := mc.mappings.map (fun m => { m with device := m.device.reset }) }

/-- Well-formedness of a controller, as maintained by `map_device` /
`unmap_device`: the block table has its 16 slots, every slot that names a
mapping names a real one whose base does not exceed the block's start, and
every device store holds bytes. -/
def MemoryController.WF (mc : MemoryController) : Prop :=
  mc.blocks.length = 16 ∧
    ∀ b mi, mc.blocks[b]? = some (some mi) →
      ∃ m, mc.mappings[mi]? = some m ∧ m.offset ≤ b * MAP_BLOCK_SIZE ∧ m.device.WF

end VM

namespace VM

/-- `RESET_VECTOR` from `cpu.rs`. -/
def RESET_VECTOR : Nat := 0xFFFE

/-- `NMI_VECTOR` from `cpu.rs`. -/
def NMI_VECTOR : Nat := 0xFFFC

/-- `IRQ_VECTOR` from `cpu.rs`. -/
def IRQ_VECTOR : Nat := 0xFFFA

/-- The `Operation` enum from `cpu.rs`. -/
inductive Operation
  | Mov
  | Adc
  | Sbc
  | Stp
  | Rst
  | Nop
deriving DecidableEq

/-- `Operation::get_operation_from_instruction`. -/
def Operation.get_operation_from_instruction (instruction : Nat) : Operation :=
  match instruction &&& 0x003F with
  | 0x00 => .Mov
  | 0x01 => .Adc
  | 0x02 => .Sbc
  | 0x30 => .Stp
  | 0x31 => .Rst
  | _ => .Nop

/-- The `Location` enum from `cpu.rs` (operand addressing modes). -/
inductive Location
  | Immediate
  | A
  | B
  | C
  | D
  | Idx
  | Idy
  | Address
  | IndexedAddress
  | IndirectAddress
  | IndirectIndexedAddress
  | IndexedIndirectAddress
  | IndexedPointer
  | IndirectPointer
  | IndirectIndexedPointer
  | IndexedIndirectPointer
deriving DecidableEq

/-- `Location::get_destination_from_instruction`: bits 15–12.  The `none`
result models the `panic!` default arm (unreachable: the shifted value is
at most `0xF`). -/
def Location.get_destination_from_instruction (instruction : Nat) : Option Location :=
  match (instruction &&& 0xF000) >>> 12 with
  | 0x0 => some .Immediate
  | 0x1 => some .A
  | 0x2 => some .B
  | 0x3 => some .C
  | 0x4 => some .D
  | 0x5 => some .Idx
  | 0x6 => some .Idy
  | 0x7 => some .Address
  | 0x8 => some .IndexedAddress
  | 0x9 => some .IndirectAddress
  | 0xA => some .IndirectIndexedAddress
  | 0xB => some .IndexedIndirectAddress
  | 0xC => some .IndexedPointer
  | 0xD => some .IndirectPointer
  | 0xE => some .IndirectIndexedPointer
  | 0xF => some .IndexedIndirectPointer
  | _ => none

/-- `Location::get_source_from_instruction`: bits 11–8. -/
def Location.get_source_from_instruction (instruction : Nat) : Option Location :=
  match (instruction &&& 0x0F00) >>> 8 with
  | 0x0 => some .Immediate
  | 0x1 => some .A
  | 0x2 => some .B
  | 0x3 => some .C
  | 0x4 => some .D
  | 0x5 => some .Idx
  | 0x6 => some .Idy
  | 0x7 => some .Address
  | 0x8 => some .IndexedAddress
  | 0x9 => some .IndirectAddress
  | 0xA => some .IndirectIndexedAddress
  | 0xB => some .IndexedIndirectAddress
  | 0xC => some .IndexedPointer
  | 0xD => some .IndirectPointer
  | 0xE => some .IndirectIndexedPointer
  | 0xF => some .IndexedIndirectPointer
  | _ => none

/-- The `CPU` struct from `cpu.rs`.  `u16` fields are `Nat`s kept below
`0x10000` by the operations; `status` is the `u8` flag byte. -/
structure CPU where
  enable : Bool
  waiting_for_interrupt : Bool
  memory_controller : MemoryController
  program_counter : Nat
  stack_pointer : Nat
  index_x : Nat
  index_y : Nat
  status : Nat
  a : Nat
  b : Nat
  c : Nat
  d : Nat

/-- `CPU::new()`. -/
def CPU.new : CPU :=
  { enable := false
    waiting_for_interrupt := false
    memory_controller := MemoryController.new
    program_counter := 0x0000
    stack_pointer := 0x0000
    index_x := 0x0000
    index_y := 0x0000
    status := 0x00
    a := 0x0000
    b := 0x0000
    c := 0x0000
    d := 0x0000 }

/-- `CPU::fetch16`: read the word at PC, advance PC by 2 (`u16` wrapping
addition). -/
def CPU.fetch16 (cpu : CPU) : Option (Nat × CPU) := do
  let fetched_value ← cpu.memory_controller.read_16 cpu.program_counter
  some (fetched_value, { cpu with program_counter := (cpu.program_counter + 2) % 0x10000 })

/-- `CPU::fetch8`: read the byte at PC, advance PC by 1. -/
def CPU.fetch8 (cpu : CPU) : Option (Nat × CPU) := do
  let fetched_value ← cpu.memory_controller.read_8 cpu.program_counter
  some (fetched_value, { cpu with program_counter := (cpu.program_counter + 1) % 0x10000 })

/-- `CPU::fetch_address`: `self.fetch16() as usize`. -/
def CPU.fetch_address (cpu : CPU) : Option (Nat × CPU) :=
  cpu.fetch16

/-- `CPU::fetch_indexed_address`: `(self.fetch16() + self.index_x) as usize`
(`u16` wrapping addition). -/
def CPU.fetch_indexed_address (cpu : CPU) : Option (Nat × CPU) := do
  let (v, cpu) ← cpu.fetch16
  some ((v + cpu.index_x) % 0x10000, cpu)

/-- `CPU::fetch_indirect_address`: `[imm16]`. -/
def CPU.fetch_indirect_address (cpu : CPU) : Option (Nat × CPU) := do
  let (indirect_address, cpu) ← cpu.fetch16
  let v ← cpu.memory_controller.read_16 indirect_address
  some (v, cpu)

/-- `CPU::fetch_indirect_indexed_address`: `[imm16] + X` (`u16` wrapping). -/
def CPU.fetch_indirect_indexed_address (cpu : CPU) : Option (Nat × CPU) := do
  let (indirect_address, cpu) ← cpu.fetch16
  let v ← cpu.memory_controller.read_16 indirect_address
  some ((v + cpu.index_x) % 0x10000, cpu)

/-- `CPU::fetch_indexed_indirect_address`: `[imm16 + X]`. -/
def CPU.fetch_indexed_indirect_address (cpu : CPU) : Option (Nat × CPU) := do
  let (w, cpu) ← cpu.fetch16
  let indirect_address := (w + cpu.index_x) % 0x10000
  let v ← cpu.memory_controller.read_16 indirect_address
  some (v, cpu)

/-- `CPU::get_pointer_indexed_address`: `(Y + X) as usize` (`u16`
wrapping; reads no memory and moves no PC). -/
def CPU.get_pointer_indexed_address (cpu : CPU) : Nat :=
  (cpu.index_y + cpu.index_x) % 0x10000

/-- `CPU::get_pointer_indirect_address`: `[Y]`. -/
def CPU.get_pointer_indirect_address (cpu : CPU) : Option Nat :=
  cpu.memory_controller.read_16 cpu.index_y

/-- `CPU::get_pointer_indirect_indexed_address`: `[Y] + X` (`u16`
wrapping). -/
def CPU.get_pointer_indirect_indexed_address (cpu : CPU) : Option Nat := do
  let v ← cpu.memory_controller.read_16 cpu.index_y
  some ((v + cpu.index_x) % 0x10000)

/-- `CPU::get_pointer_indexed_indirect_address`: `[Y + X]`. -/
def CPU.get_pointer_indexed_indirect_address (cpu : CPU) : Option Nat :=
  cpu.memory_controller.read_16 ((cpu.index_y + cpu.index_x) % 0x10000)

/-- `CPU::get_sign_flag` (bit `0x80`). -/
def CPU.get_sign_flag (cpu : CPU) : Bool :=
  cpu.status &&& 0x80 != 0

/-- `CPU::get_zero_flag` (bit `0x40`). -/
def CPU.get_zero_flag (cpu : CPU) : Bool :=
  cpu.status &&& 0x40 != 0

/-- `CPU::get_parity_flag` (bit `0x20`). -/
def CPU.get_parity_flag (cpu : CPU) : Bool :=
  cpu.status &&& 0x20 != 0

/-- `CPU::get_carry_flag` (bit `0x10`). -/
def CPU.get_carry_flag (cpu : CPU) : Bool :=
  cpu.status &&& 0x10 != 0

/-- `CPU::get_overflow_flag` (bit `0x08`). -/
def CPU.get_overflow_flag (cpu : CPU) : Bool :=
  cpu.status &&& 0x08 != 0

/-- `CPU::get_interrupt_disable_flag` (bit `0x04`). -/
def CPU.get_interrupt_disable_flag (cpu : CPU) : Bool :=
  cpu.status &&& 0x04 != 0

/-- `CPU::set_sign_flag`. -/
def CPU.set_sign_flag (cpu : CPU) (flag : Bool) : CPU :=
  if flag then { cpu with status := cpu.status ||| 0x80 }
  else { cpu with status := cpu.status &&& 0x7F }

/-- `CPU::set_zero_flag`. -/
def CPU.set_zero_flag (cpu : CPU) (flag : Bool) : CPU :=
  if flag then { cpu with status := cpu.status ||| 0x40 }
  else { cpu with status := cpu.status &&& 0xBF }

/-- `CPU::set_parity_flag`. -/
def CPU.set_parity_flag (cpu : CPU) (flag : Bool) : CPU :=
  if flag then { cpu with status := cpu.status ||| 0x20 }
  else { cpu with status := cpu.status &&& 0xDF }

/-- `CPU::set_carry_flag`. -/
def CPU.set_carry_flag (cpu : CPU) (flag : Bool) : CPU :=
  if flag then { cpu with status := cpu.status ||| 0x10 }
  else { cpu with status := cpu.status &&& 0xEF }

/-- `CPU::set_overflow_flag`. -/
def CPU.set_overflow_flag (cpu : CPU) (flag : Bool) : CPU :=
  if flag then { cpu with status := cpu.status ||| 0x08 }
  else { cpu with status := cpu.status &&& 0xF7 }

/-- `CPU::set_interrupt_disable_flag`. -/
def CPU.set_interrupt_disable_flag (cpu : CPU) (flag : Bool) : CPU :=
  if flag then { cpu with status := cpu.status ||| 0x04 }
  else { cpu with status := cpu.status &&& 0xFB }

/-- `u16::count_ones` for a value below `2^16`: the number of set bits
among bits 0–15. -/
def countOnes16 (n : Nat) : Nat :=
  ((List.range 16).filter (fun i => n.testBit i)).length

/-- `u8::count_ones` for a value below `2^8`. -/
def countOnes8 (n : Nat) : Nat :=
  ((List.range 8).filter (fun i => n.testBit i)).length

/-- `CPU::set_flags_from_value16`: S from bit 7 (`value & 0x80` — the
source uses the same mask as the 8-bit variant), Z from `value == 0`,
P from even popcount. -/
def CPU.set_flags_from_value16 (cpu : CPU) (value : Nat) : CPU :=
  let cpu := cpu.set_sign_flag (value &&& 0x80 != 0)
  let cpu := cpu.set_zero_flag (value == 0)
  cpu.set_parity_flag (countOnes16 value % 2 == 0)

/-- `CPU::set_flags_from_value8`. -/
def CPU.set_flags_from_value8 (cpu : CPU) (value : Nat) : CPU :=
  let cpu := cpu.set_sign_flag (value &&& 0x80 != 0)
  let cpu := cpu.set_zero_flag (value == 0)
  cpu.set_parity_flag (countOnes8 value % 2 == 0)

/-- `CPU::set_al`: write the low byte of A, preserving the high byte. -/
def CPU.set_al (cpu : CPU) (value : Nat) : CPU :=
  { cpu with a := cpu.a &&& 0xFF00 ||| value % 0x100 }

/-- `CPU::set_ah`: write the high byte of A, preserving the low byte. -/
def CPU.set_ah (cpu : CPU) (value : Nat) : CPU :=
  { cpu with a := cpu.a &&& 0x00FF ||| (value % 0x100) <<< 8 }

/-- `CPU::set_bl`. -/
def CPU.set_bl (cpu : CPU) (value : Nat) : CPU :=
  { cpu with b := cpu.b &&& 0xFF00 ||| value % 0x100 }

/-- `CPU::set_bh`. -/
def CPU.set_bh (cpu : CPU) (value : Nat) : CPU :=
  { cpu with b := cpu.b &&& 0x00FF ||| (value % 0x100) <<< 8 }

/-- `CPU::set_cl`. -/
def CPU.set_cl (cpu : CPU) (value : Nat) : CPU :=
  { cpu with c := cpu.c &&& 0xFF00 ||| value % 0x100 }

/-- `CPU::set_ch`. -/
def CPU.set_ch (cpu : CPU) (value : Nat) : CPU :=
  { cpu with c := cpu.c &&& 0x00FF ||| (value % 0x100) <<< 8 }

/-- `CPU::set_dl`. -/
def CPU.set_dl (cpu : CPU) (value : Nat) : CPU :=
  { cpu with d := cpu.d &&& 0xFF00 ||| value % 0x100 }

/-- `CPU::set_dh`. -/
def CPU.set_dh (cpu : CPU) (value : Nat) : CPU :=
  { cpu with d := cpu.d &&& 0x00FF ||| (value % 0x100) <<< 8 }

/-- `CPU::set_idxl`. -/
def CPU.set_idxl (cpu : CPU) (value : Nat) : CPU :=
  { cpu with index_x := cpu.index_x &&& 0xFF00 ||| value % 0x100 }

/-- `CPU::set_idxh`. -/
def CPU.set_idxh (cpu : CPU) (value : Nat) : CPU :=
  { cpu with index_x := cpu.index_x &&& 0x00FF ||| (value % 0x100) <<< 8 }

/-- `CPU::set_idyl`. -/
def CPU.set_idyl (cpu : CPU) (value : Nat) : CPU :=
  { cpu with index_y := cpu.index_y &&& 0xFF00 ||| value % 0x100 }

/-- `CPU::set_idyh`. -/
def CPU.set_idyh (cpu : CPU) (value : Nat) : CPU :=
  { cpu with index_y := cpu.index_y &&& 0x00FF ||| (value % 0x100) <<< 8 }

/-- `CPU::add_with_carry16`: `u16::carrying_add`, then S/Z/P from the
result, C from the carry-out, O from the signed-overflow rule. -/
def CPU.add_with_carry16 (cpu : CPU) (lhs rhs : Nat) (carry : Bool) : Nat × CPU :=
  let sum := lhs + rhs + (if carry then 1 else 0)
  let result := sum % 0x10000
  let carry_out := decide (0x10000 ≤ sum)
  let cpu := cpu.set_flags_from_value16 result
  let cpu := cpu.set_carry_flag carry_out
  let cpu := cpu.set_overflow_flag
    (lhs &&& 0x8000 == rhs &&& 0x8000 && lhs &&& 0x8000 != result &&& 0x8000)
  (result, cpu)

/-- `CPU::add_with_carry8`: `u8::carrying_add` plus flag updates. -/
def CPU.add_with_carry8 (cpu : CPU) (lhs rhs : Nat) (carry : Bool) : Nat × CPU :=
  let sum := lhs + rhs + (if carry then 1 else 0)
  let result := sum % 0x100
  let carry_out := decide (0x100 ≤ sum)
  let cpu := cpu.set_flags_from_value8 result
  let cpu := cpu.set_carry_flag carry_out
  let cpu := cpu.set_overflow_flag
    (lhs &&& 0x80 == rhs &&& 0x80 && lhs &&& 0x80 != result &&& 0x80)
  (result, cpu)

/-- `CPU::subtract_with_carry16`: `u16::borrowing_sub(rhs, !carry)`, C set
to NOT borrow, O from the same sign rule the source uses for addition. -/
def CPU.subtract_with_carry16 (cpu : CPU) (lhs rhs : Nat) (carry : Bool) : Nat × CPU :=
  let borrow_in := if carry then 0 else 1
  let result := (lhs + 0x10000 - (rhs % 0x10000 + borrow_in)) % 0x10000
  let borrow := decide (lhs < rhs % 0x10000 + borrow_in)
  let cpu := cpu.set_flags_from_value16 result
  let cpu := cpu.set_carry_flag !borrow
  let cpu := cpu.set_overflow_flag
    (lhs &&& 0x8000 == rhs &&& 0x8000 && lhs &&& 0x8000 != result &&& 0x8000)
  (result, cpu)

/-- `CPU::subtract_with_carry8`: `u8::borrowing_sub(rhs, !carry)`. -/
def CPU.subtract_with_carry8 (cpu : CPU) (lhs rhs : Nat) (carry : Bool) : Nat × CPU :=
  let borrow_in := if carry then 0 else 1
  let result := (lhs + 0x100 - (rhs % 0x100 + borrow_in)) % 0x100
  let borrow := decide (lhs < rhs % 0x100 + borrow_in)
  let cpu := cpu.set_flags_from_value8 result
  let cpu := cpu.set_carry_flag !borrow
  let cpu := cpu.set_overflow_flag
    (lhs &&& 0x80 == rhs &&& 0x80 && lhs &&& 0x80 != result &&& 0x80)
  (result, cpu)

end VM

namespace VM

/-- The 16-bit source-operand resolution `match` that `execute_mov16`,
`execute_adc16` and `execute_sbc16` each contain verbatim in `cpu.rs`
(the source duplicates this block in all three). -/
def CPU.source_value16 (cpu : CPU) (source : Location) : Option (Nat × CPU) :=
  match source with
  | .Immediate => cpu.fetch16
  | .A => some (cpu.a, cpu)
  | .B => some (cpu.b, cpu)
  | .C => some (cpu.c, cpu)
  | .D => some (cpu.d, cpu)
  | .Idx => some (cpu.index_x, cpu)
  | .Idy => some (cpu.index_y, cpu)
  | .Address => do
    let (source_address, cpu) ← cpu.fetch_address
    let v ← cpu.memory_controller.read_16 source_address
    some (v, cpu)
  | .IndexedAddress => do
    let (source_address, cpu) ← cpu.fetch_indexed_address
    let v ← cpu.memory_controller.read_16 source_address
    some (v, cpu)
  | .IndirectAddress => do
    let (source_address, cpu) ← cpu.fetch_indirect_address
    let v ← cpu.memory_controller.read_16 source_address
    some (v, cpu)
  | .IndirectIndexedAddress => do
    let (source_address, cpu) ← cpu.fetch_indirect_indexed_address
    let v ← cpu.memory_controller.read_16 source_address
    some (v, cpu)
  | .IndexedIndirectAddress => do
    let (source_address, cpu) ← cpu.fetch_indexed_indirect_address
    let v ← cpu.memory_controller.read_16 source_address
    some (v, cpu)
  | .IndexedPointer => do
    let source_address := cpu.get_pointer_indexed_address
    let v ← cpu.memory_controller.read_16 source_address
    some (v, cpu)
  | .IndirectPointer => do
    let source_address ← cpu.get_pointer_indirect_address
    let v ← cpu.memory_controller.read_16 source_address
    some (v, cpu)
  | .IndirectIndexedPointer => do
    let source_address ← cpu.get_pointer_indirect_indexed_address
    let v ← cpu.memory_controller.read_16 source_address
    some (v, cpu)
  | .IndexedIndirectPointer => do
    let source_address ← cpu.get_pointer_indexed_indirect_address
    let v ← cpu.memory_controller.read_16 source_address
    some (v, cpu)

/-- The 8-bit source-operand resolution `match` that `execute_mov8`,
`execute_adc8` and `execute_sbc8` each contain verbatim in `cpu.rs`.
Register sources read the half selected by `lo_hi` (`reg >> 8` or
`reg as u8`). -/
def CPU.source_value8 (cpu : CPU) (lo_hi : Bool) (source : Location) : Option (Nat × CPU) :=
  match source with
  | .Immediate => cpu.fetch8
  | .A => some (if lo_hi then (cpu.a >>> 8) % 0x100 else cpu.a % 0x100, cpu)
  | .B => some (if lo_hi then (cpu.b >>> 8) % 0x100 else cpu.b % 0x100, cpu)
  | .C => some (if lo_hi then (cpu.c >>> 8) % 0x100 else cpu.c % 0x100, cpu)
  | .D => some (if lo_hi then (cpu.d >>> 8) % 0x100 else cpu.d % 0x100, cpu)
  | .Idx => some (if lo_hi then (cpu.index_x >>> 8) % 0x100 else cpu.index_x % 0x100, cpu)
  | .Idy => some (if lo_hi then (cpu.index_y >>> 8) % 0x100 else cpu.index_y % 0x100, cpu)
  | .Address => do
    let (source_address, cpu) ← cpu.fetch_address
    let v ← cpu.memory_controller.read_8 source_address
    some (v, cpu)
  | .IndexedAddress => do
    let (source_address, cpu) ← cpu.fetch_indexed_address
    let v ← cpu.memory_controller.read_8 source_address
    some (v, cpu)
  | .IndirectAddress => do
    let (source_address, cpu) ← cpu.fetch_indirect_address
    let v ← cpu.memory_controller.read_8 source_address
    some (v, cpu)
  | .IndirectIndexedAddress => do
    let (source_address, cpu) ← cpu.fetch_indirect_indexed_address
    let v ← cpu.memory_controller.read_8 source_address
    some (v, cpu)
  | .IndexedIndirectAddress => do
    let (source_address, cpu) ← cpu.fetch_indexed_indirect_address
    let v ← cpu.memory_controller.read_8 source_address
    some (v, cpu)
  | .IndexedPointer => do
    let source_address := cpu.get_pointer_indexed_address
    let v ← cpu.memory_controller.read_8 source_address
    some (v, cpu)
  | .IndirectPointer => do
    let source_address ← cpu.get_pointer_indirect_address
    let v ← cpu.memory_controller.read_8 source_address
    some (v, cpu)
  | .IndirectIndexedPointer => do
    let source_address ← cpu.get_pointer_indirect_indexed_address
    let v ← cpu.memory_controller.read_8 source_address
    some (v, cpu)
  | .IndexedIndirectPointer => do
    let source_address ← cpu.get_pointer_indexed_indirect_address
    let v ← cpu.memory_controller.read_8 source_address
    some (v, cpu)

/-- `CPU::execute_mov16`: resolve the source, set S/Z/P from the value,
commit to the destination (`Immediate` destination discards the write). -/
def CPU.execute_mov16 (cpu : CPU) (destination source : Location) : Option CPU := do
  let (source_value, cpu) ← cpu.source_value16 source
  let cpu := cpu.set_flags_from_value16 source_value
  match destination with
  | .Immediate => some cpu
  | .A => some { cpu with a := source_value }
  | .B => some { cpu with b := source_value }
  | .C => some { cpu with c := source_value }
  | .D => some { cpu with d := source_value }
  | .Idx => some { cpu with index_x := source_value }
  | .Idy => some { cpu with index_y := source_value }
  | .Address => do
    let (destination_address, cpu) ← cpu.fetch_address
    let mc ← cpu.memory_controller.write_16 destination_address source_value
    some { cpu with memory_controller := mc }
  | .IndexedAddress => do
    let (destination_address, cpu) ← cpu.fetch_indexed_address
    let mc ← cpu.memory_controller.write_16 destination_address source_value
    some { cpu with memory_controller := mc }
  | .IndirectAddress => do
    let (destination_address, cpu) ← cpu.fetch_indirect_address
    let mc ← cpu.memory_controller.write_16 destination_address source_value
    some { cpu with memory_controller := mc }
  | .IndirectIndexedAddress => do
    let (destination_address, cpu) ← cpu.fetch_indirect_indexed_address
    let mc ← cpu.memory_controller.write_16 destination_address source_value
    some { cpu with memory_controller := mc }
  | .IndexedIndirectAddress => do
    let (destination_address, cpu) ← cpu.fetch_indexed_indirect_address
    let mc ← cpu.memory_controller.write_16 destination_address source_value
    some { cpu with memory_controller := mc }
  | .IndexedPointer => do
    let destination_address := cpu.get_pointer_indexed_address
    let mc ← cpu.memory_controller.write_16 destination_address source_value
    some { cpu with memory_controller := mc }
  | .IndirectPointer => do
    let destination_address ← cpu.get_pointer_indirect_address
    let mc ← cpu.memory_controller.write_16 destination_address source_value
    some { cpu with memory_controller := mc }
  | .IndirectIndexedPointer => do
    let destination_address ← cpu.get_pointer_indirect_indexed_address
    let mc ← cpu.memory_controller.write_16 destination_address source_value
    some { cpu with memory_controller := mc }
  | .IndexedIndirectPointer => do
    let destination_address ← cpu.get_pointer_indexed_indirect_address
    let mc ← cpu.memory_controller.write_16 destination_address source_value
    some { cpu with memory_controller := mc }

/-- `CPU::execute_mov8`: byte MOV; register destinations write the half
selected by `lo_hi` via `set_*l`/`set_*h`. -/
def CPU.execute_mov8 (cpu : CPU) (lo_hi : Bool) (destination source : Location) : Option CPU := do
  let (source_value, cpu) ← cpu.source_value8 lo_hi source
  let cpu := cpu.set_flags_from_value8 source_value
  match destination with
  | .Immediate => some cpu
  | .A => some (if lo_hi then cpu.set_ah source_value else cpu.set_al source_value)
  | .B => some (if lo_hi then cpu.set_bh source_value else cpu.set_bl source_value)
  | .C => some (if lo_hi then cpu.set_ch source_value else cpu.set_cl source_value)
  | .D => some (if lo_hi then cpu.set_dh source_value else cpu.set_dl source_value)
  | .Idx => some (if lo_hi then cpu.set_idxh source_value else cpu.set_idxl source_value)
  | .Idy => some (if lo_hi then cpu.set_idyh source_value else cpu.set_idyl source_value)
  | .Address => do
    let (destination_address, cpu) ← cpu.fetch_address
    let mc ← cpu.memory_controller.write_8 destination_address source_value
    some { cpu with memory_controller := mc }
  | .IndexedAddress => do
    let (destination_address, cpu) ← cpu.fetch_indexed_address
    let mc ← cpu.memory_controller.write_8 destination_address source_value
    some { cpu with memory_controller := mc }
  | .IndirectAddress => do
    let (destination_address, cpu) ← cpu.fetch_indirect_address
    let mc ← cpu.memory_controller.write_8 destination_address source_value
    some { cpu with memory_controller := mc }
  | .IndirectIndexedAddress => do
    let (destination_address, cpu) ← cpu.fetch_indirect_indexed_address
    let mc ← cpu.memory_controller.write_8 destination_address source_value
    some { cpu with memory_controller := mc }
  | .IndexedIndirectAddress => do
    let (destination_address, cpu) ← cpu.fetch_indexed_indirect_address
    let mc ← cpu.memory_controller.write_8 destination_address source_value
    some { cpu with memory_controller := mc }
  | .IndexedPointer => do
    let destination_address := cpu.get_pointer_indexed_address
    let mc ← cpu.memory_controller.write_8 destination_address source_value
    some { cpu with memory_controller := mc }
  | .IndirectPointer => do
    let destination_address ← cpu.get_pointer_indirect_address
    let mc ← cpu.memory_controller.write_8 destination_address source_value
    some { cpu with memory_controller := mc }
  | .IndirectIndexedPointer => do
    let destination_address ← cpu.get_pointer_indirect_indexed_address
    let mc ← cpu.memory_controller.write_8 destination_address source_value
    some { cpu with memory_controller := mc }
  | .IndexedIndirectPointer => do
    let destination_address ← cpu.get_pointer_indexed_indirect_address
    let mc ← cpu.memory_controller.write_8 destination_address source_value
    some { cpu with memory_controller := mc }

end VM

namespace VM

/-- `CPU::execute_adc16`: resolve the source, then add-with-carry into the
destination.  Register destinations use the register as the left operand;
memory destinations read the current value at the resolved address first. -/
def CPU.execute_adc16 (cpu : CPU) (destination source : Location) : Option CPU := do
  let (source_value, cpu) ← cpu.source_value16 source
  match destination with
  | .Immediate => some cpu
  | .A =>
    let (r, cpu) := cpu.add_with_carry16 cpu.a source_value cpu.get_carry_flag
    some { cpu with a := r }
  | .B =>
    let (r, cpu) := cpu.add_with_carry16 cpu.b source_value cpu.get_carry_flag
    some { cpu with b := r }
  | .C =>
    let (r, cpu) := cpu.add_with_carry16 cpu.c source_value cpu.get_carry_flag
    some { cpu with c := r }
  | .D =>
    let (r, cpu) := cpu.add_with_carry16 cpu.d source_value cpu.get_carry_flag
    some { cpu with d := r }
  | .Idx =>
    let (r, cpu) := cpu.add_with_carry16 cpu.index_x source_value cpu.get_carry_flag
    some { cpu with index_x := r }
  | .Idy =>
    let (r, cpu) := cpu.add_with_carry16 cpu.index_y source_value cpu.get_carry_flag
    some { cpu with index_y := r }
  | .Address => do
    let (destination_address, cpu) ← cpu.fetch_address
    let current ← cpu.memory_controller.read_16 destination_address
    let (r, cpu) := cpu.add_with_carry16 current source_value cpu.get_carry_flag
    let mc ← cpu.memory_controller.write_16 destination_address r
    some { cpu with memory_controller := mc }
  | .IndexedAddress => do
    let (destination_address, cpu) ← cpu.fetch_indexed_address
    let current ← cpu.memory_controller.read_16 destination_address
    let (r, cpu) := cpu.add_with_carry16 current source_value cpu.get_carry_flag
    let mc ← cpu.memory_controller.write_16 destination_address r
    some { cpu with memory_controller := mc }
  | .IndirectAddress => do
    let (destination_address, cpu) ← cpu.fetch_indirect_address
    let current ← cpu.memory_controller.read_16 destination_address
    let (r, cpu) := cpu.add_with_carry16 current source_value cpu.get_carry_flag
    let mc ← cpu.memory_controller.write_16 destination_address r
    some { cpu with memory_controller := mc }
  | .IndirectIndexedAddress => do
    let (destination_address, cpu) ← cpu.fetch_indirect_indexed_address
    let current ← cpu.memory_controller.read_16 destination_address
    let (r, cpu) := cpu.add_with_carry16 current source_value cpu.get_carry_flag
    let mc ← cpu.memory_controller.write_16 destination_address r
    some { cpu with memory_controller := mc }
  | .IndexedIndirectAddress => do
    let (destination_address, cpu) ← cpu.fetch_indexed_indirect_address
    let current ← cpu.memory_controller.read_16 destination_address
    let (r, cpu) := cpu.add_with_carry16 current source_value cpu.get_carry_flag
    let mc ← cpu.memory_controller.write_16 destination_address r
    some { cpu with memory_controller := mc }
  | .IndexedPointer => do
    let destination_address := cpu.get_pointer_indexed_address
    let current ← cpu.memory_controller.read_16 destination_address
    let (r, cpu) := cpu.add_with_carry16 current source_value cpu.get_carry_flag
    let mc ← cpu.memory_controller.write_16 destination_address r
    some { cpu with memory_controller := mc }
  | .IndirectPointer => do
    let destination_address ← cpu.get_pointer_indirect_address
    let current ← cpu.memory_controller.read_16 destination_address
    let (r, cpu) := cpu.add_with_carry16 current source_value cpu.get_carry_flag
    let mc ← cpu.memory_controller.write_16 destination_address r
    some { cpu with memory_controller := mc }
  | .IndirectIndexedPointer => do
    let destination_address ← cpu.get_pointer_indirect_indexed_address
    let current ← cpu.memory_controller.read_16 destination_address
    let (r, cpu) := cpu.add_with_carry16 current source_value cpu.get_carry_flag
    let mc ← cpu.memory_controller.write_16 destination_address r
    some { cpu with memory_controller := mc }
  | .IndexedIndirectPointer => do
    let destination_address ← cpu.get_pointer_indexed_indirect_address
    let current ← cpu.memory_controller.read_16 destination_address
    let (r, cpu) := cpu.add_with_carry16 current source_value cpu.get_carry_flag
    let mc ← cpu.memory_controller.write_16 destination_address r
    some { cpu with memory_controller := mc }

/-- `CPU::execute_adc8`: byte ADC.  For register destinations the source
passes `self.reg as u8` — the LOW byte — as the current destination
operand regardless of `lo_hi`, while the write-back selects the half by
`lo_hi` (`set_*h`/`set_*l`). -/
def CPU.execute_adc8 (cpu : CPU) (lo_hi : Bool) (destination source : Location) : Option CPU := do
  let (source_value, cpu) ← cpu.source_value8 lo_hi source
  match destination with
  | .Immediate => some cpu
  | .A =>
    let (r, cpu) := cpu.add_with_carry8 (cpu.a % 0x100) source_value cpu.get_carry_flag
    some (if lo_hi then cpu.set_ah r else cpu.set_al r)
  | .B =>
    let (r, cpu) := cpu.add_with_carry8 (cpu.b % 0x100) source_value cpu.get_carry_flag
    some (if lo_hi then cpu.set_bh r else cpu.set_bl r)
  | .C =>
    let (r, cpu) := cpu.add_with_carry8 (cpu.c % 0x100) source_value cpu.get_carry_flag
    some (if lo_hi then cpu.set_ch r else cpu.set_cl r)
  | .D =>
    let (r, cpu) := cpu.add_with_carry8 (cpu.d % 0x100) source_value cpu.get_carry_flag
    some (if lo_hi then cpu.set_dh r else cpu.set_dl r)
  | .Idx =>
    let (r, cpu) := cpu.add_with_carry8 (cpu.index_x % 0x100) source_value cpu.get_carry_flag
    some (if lo_hi then cpu.set_idxh r else cpu.set_idxl r)
  | .Idy =>
    let (r, cpu) := cpu.add_with_carry8 (cpu.index_y % 0x100) source_value cpu.get_carry_flag
    some (if lo_hi then cpu.set_idyh r else cpu.set_idyl r)
  | .Address => do
    let (destination_address, cpu) ← cpu.fetch_address
    let current ← cpu.memory_controller.read_8 destination_address
    let (r, cpu) := cpu.add_with_carry8 current source_value cpu.get_carry_flag
    let mc ← cpu.memory_controller.write_8 destination_address r
    some { cpu with memory_controller := mc }
  | .IndexedAddress => do
    let (destination_address, cpu) ← cpu.fetch_indexed_address
    let current ← cpu.memory_controller.read_8 destination_address
    let (r, cpu) := cpu.add_with_carry8 current source_value cpu.get_carry_flag
    let mc ← cpu.memory_controller.write_8 destination_address r
    some { cpu with memory_controller := mc }
  | .IndirectAddress => do
    let (destination_address, cpu) ← cpu.fetch_indirect_address
    let current ← cpu.memory_controller.read_8 destination_address
    let (r, cpu) := cpu.add_with_carry8 current source_value cpu.get_carry_flag
    let mc ← cpu.memory_controller.write_8 destination_address r
    some { cpu with memory_controller := mc }
  | .IndirectIndexedAddress => do
    let (destination_address, cpu) ← cpu.fetch_indirect_indexed_address
    let current ← cpu.memory_controller.read_8 destination_address
    let (r, cpu) := cpu.add_with_carry8 current source_value cpu.get_carry_flag
    let mc ← cpu.memory_controller.write_8 destination_address r
    some { cpu with memory_controller := mc }
  | .IndexedIndirectAddress => do
    let (destination_address, cpu) ← cpu.fetch_indexed_indirect_address
    let current ← cpu.memory_controller.read_8 destination_address
    let (r, cpu) := cpu.add_with_carry8 current source_value cpu.get_carry_flag
    let mc ← cpu.memory_controller.write_8 destination_address r
    some { cpu with memory_controller := mc }
  | .IndexedPointer => do
    let destination_address := cpu.get_pointer_indexed_address
    let current ← cpu.memory_controller.read_8 destination_address
    let (r, cpu) := cpu.add_with_carry8 current source_value cpu.get_carry_flag
    let mc ← cpu.memory_controller.write_8 destination_address r
    some { cpu with memory_controller := mc }
  | .IndirectPointer => do
    let destination_address ← cpu.get_pointer_indirect_address
    let current ← cpu.memory_controller.read_8 destination_address
    let (r, cpu) := cpu.add_with_carry8 current source_value cpu.get_carry_flag
    let mc ← cpu.memory_controller.write_8 destination_address r
    some { cpu with memory_controller := mc }
  | .IndirectIndexedPointer => do
    let destination_address ← cpu.get_pointer_indirect_indexed_address
    let current ← cpu.memory_controller.read_8 destination_address
    let (r, cpu) := cpu.add_with_carry8 current source_value cpu.get_carry_flag
    let mc ← cpu.memory_controller.write_8 destination_address r
    some { cpu with memory_controller := mc }
  | .IndexedIndirectPointer => do
    let destination_address ← cpu.get_pointer_indexed_indirect_address
    let current ← cpu.memory_controller.read_8 destination_address
    let (r, cpu) := cpu.add_with_carry8 current source_value cpu.get_carry_flag
    let mc ← cpu.memory_controller.write_8 destination_address r
    some { cpu with memory_controller := mc }

end VM

namespace VM

/-- `CPU::execute_sbc16`: like `execute_adc16` with
`subtract_with_carry16`. -/
def CPU.execute_sbc16 (cpu : CPU) (destination source : Location) : Option CPU := do
  let (source_value, cpu) ← cpu.source_value16 source
  match destination with
  | .Immediate => some cpu
  | .A =>
    let (r, cpu) := cpu.subtract_with_carry16 cpu.a source_value cpu.get_carry_flag
    some { cpu with a := r }
  | .B =>
    let (r, cpu) := cpu.subtract_with_carry16 cpu.b source_value cpu.get_carry_flag
    some { cpu with b := r }
  | .C =>
    let (r, cpu) := cpu.subtract_with_carry16 cpu.c source_value cpu.get_carry_flag
    some { cpu with c := r }
  | .D =>
    let (r, cpu) := cpu.subtract_with_carry16 cpu.d source_value cpu.get_carry_flag
    some { cpu with d := r }
  | .Idx =>
    let (r, cpu) := cpu.subtract_with_carry16 cpu.index_x source_value cpu.get_carry_flag
    some { cpu with index_x := r }
  | .Idy =>
    let (r, cpu) := cpu.subtract_with_carry16 cpu.index_y source_value cpu.get_carry_flag
    some { cpu with index_y := r }
  | .Address => do
    let (destination_address, cpu) ← cpu.fetch_address
    let current ← cpu.memory_controller.read_16 destination_address
    let (r, cpu) := cpu.subtract_with_carry16 current source_value cpu.get_carry_flag
    let mc ← cpu.memory_controller.write_16 destination_address r
    some { cpu with memory_controller := mc }
  | .IndexedAddress => do
    let (destination_address, cpu) ← cpu.fetch_indexed_address
    let current ← cpu.memory_controller.read_16 destination_address
    let (r, cpu) := cpu.subtract_with_carry16 current source_value cpu.get_carry_flag
    let mc ← cpu.memory_controller.write_16 destination_address r
    some { cpu with memory_controller := mc }
  | .IndirectAddress => do
    let (destination_address, cpu) ← cpu.fetch_indirect_address
    let current ← cpu.memory_controller.read_16 destination_address
    let (r, cpu) := cpu.subtract_with_carry16 current source_value cpu.get_carry_flag
    let mc ← cpu.memory_controller.write_16 destination_address r
    some { cpu with memory_controller := mc }
  | .IndirectIndexedAddress => do
    let (destination_address, cpu) ← cpu.fetch_indirect_indexed_address
    let current ← cpu.memory_controller.read_16 destination_address
    let (r, cpu) := cpu.subtract_with_carry16 current source_value cpu.get_carry_flag
    let mc ← cpu.memory_controller.write_16 destination_address r
    some { cpu with memory_controller := mc }
  | .IndexedIndirectAddress => do
    let (destination_address, cpu) ← cpu.fetch_indexed_indirect_address
    let current ← cpu.memory_controller.read_16 destination_address
    let (r, cpu) := cpu.subtract_with_carry16 current source_value cpu.get_carry_flag
    let mc ← cpu.memory_controller.write_16 destination_address r
    some { cpu with memory_controller := mc }
  | .IndexedPointer => do
    let destination_address := cpu.get_pointer_indexed_address
    let current ← cpu.memory_controller.read_16 destination_address
    let (r, cpu) := cpu.subtract_with_carry16 current source_value cpu.get_carry_flag
    let mc ← cpu.memory_controller.write_16 destination_address r
    some { cpu with memory_controller := mc }
  | .IndirectPointer => do
    let destination_address ← cpu.get_pointer_indirect_address
    let current ← cpu.memory_controller.read_16 destination_address
    let (r, cpu) := cpu.subtract_with_carry16 current source_value cpu.get_carry_flag
    let mc ← cpu.memory_controller.write_16 destination_address r
    some { cpu with memory_controller := mc }
  | .IndirectIndexedPointer => do
    let destination_address ← cpu.get_pointer_indirect_indexed_address
    let current ← cpu.memory_controller.read_16 destination_address
    let (r, cpu) := cpu.subtract_with_carry16 current source_value cpu.get_carry_flag
    let mc ← cpu.memory_controller.write_16 destination_address r
    some { cpu with memory_controller := mc }
  | .IndexedIndirectPointer => do
    let destination_address ← cpu.get_pointer_indexed_indirect_address
    let current ← cpu.memory_controller.read_16 destination_address
    let (r, cpu) := cpu.subtract_with_carry16 current source_value cpu.get_carry_flag
    let mc ← cpu.memory_controller.write_16 destination_address r
    some { cpu with memory_controller := mc }

/-- `CPU::execute_sbc8`: byte SBC.  As in `execute_adc8`, register
destinations pass `self.reg as u8` — the LOW byte — as the current
destination operand regardless of `lo_hi`, while the write-back selects
the half by `lo_hi`. -/
def CPU.execute_sbc8 (cpu : CPU) (lo_hi : Bool) (destination source : Location) : Option CPU := do
  let (source_value, cpu) ← cpu.source_value8 lo_hi source
  match destination with
  | .Immediate => some cpu
  | .A =>
    let (r, cpu) := cpu.subtract_with_carry8 (cpu.a % 0x100) source_value cpu.get_carry_flag
    some (if lo_hi then cpu.set_ah r else cpu.set_al r)
  | .B =>
    let (r, cpu) := cpu.subtract_with_carry8 (cpu.b % 0x100) source_value cpu.get_carry_flag
    some (if lo_hi then cpu.set_bh r else cpu.set_bl r)
  | .C =>
    let (r, cpu) := cpu.subtract_with_carry8 (cpu.c % 0x100) source_value cpu.get_carry_flag
    some (if lo_hi then cpu.set_ch r else cpu.set_cl r)
  | .D =>
    let (r, cpu) := cpu.subtract_with_carry8 (cpu.d % 0x100) source_value cpu.get_carry_flag
    some (if lo_hi then cpu.set_dh r else cpu.set_dl r)
  | .Idx =>
    let (r, cpu) := cpu.subtract_with_carry8 (cpu.index_x % 0x100) source_value cpu.get_carry_flag
    some (if lo_hi then cpu.set_idxh r else cpu.set_idxl r)
  | .Idy =>
    let (r, cpu) := cpu.subtract_with_carry8 (cpu.index_y % 0x100) source_value cpu.get_carry_flag
    some (if lo_hi then cpu.set_idyh r else cpu.set_idyl r)
  | .Address => do
    let (destination_address, cpu) ← cpu.fetch_address
    let current ← cpu.memory_controller.read_8 destination_address
    let (r, cpu) := cpu.subtract_with_carry8 current source_value cpu.get_carry_flag
    let mc ← cpu.memory_controller.write_8 destination_address r
    some { cpu with memory_controller := mc }
  | .IndexedAddress => do
    let (destination_address, cpu) ← cpu.fetch_indexed_address
    let current ← cpu.memory_controller.read_8 destination_address
    let (r, cpu) := cpu.subtract_with_carry8 current source_value cpu.get_carry_flag
    let mc ← cpu.memory_controller.write_8 destination_address r
    some { cpu with memory_controller := mc }
  | .IndirectAddress => do
    let (destination_address, cpu) ← cpu.fetch_indirect_address
    let current ← cpu.memory_controller.read_8 destination_address
    let (r, cpu) := cpu.subtract_with_carry8 current source_value cpu.get_carry_flag
    let mc ← cpu.memory_controller.write_8 destination_address r
    some { cpu with memory_controller := mc }
  | .IndirectIndexedAddress => do
    let (destination_address, cpu) ← cpu.fetch_indirect_indexed_address
    let current ← cpu.memory_controller.read_8 destination_address
    let (r, cpu) := cpu.subtract_with_carry8 current source_value cpu.get_carry_flag
    let mc ← cpu.memory_controller.write_8 destination_address r
    some { cpu with memory_controller := mc }
  | .IndexedIndirectAddress => do
    let (destination_address, cpu) ← cpu.fetch_indexed_indirect_address
    let current ← cpu.memory_controller.read_8 destination_address
    let (r, cpu) := cpu.subtract_with_carry8 current source_value cpu.get_carry_flag
    let mc ← cpu.memory_controller.write_8 destination_address r
    some { cpu with memory_controller := mc }
  | .IndexedPointer => do
    let destination_address := cpu.get_pointer_indexed_address
    let current ← cpu.memory_controller.read_8 destination_address
    let (r, cpu) := cpu.subtract_with_carry8 current source_value cpu.get_carry_flag
    let mc ← cpu.memory_controller.write_8 destination_address r
    some { cpu with memory_controller := mc }
  | .IndirectPointer => do
    let destination_address ← cpu.get_pointer_indirect_address
    let current ← cpu.memory_controller.read_8 destination_address
    let (r, cpu) := cpu.subtract_with_carry8 current source_value cpu.get_carry_flag
    let mc ← cpu.memory_controller.write_8 destination_address r
    some { cpu with memory_controller := mc }
  | .IndirectIndexedPointer => do
    let destination_address ← cpu.get_pointer_indirect_indexed_address
    let current ← cpu.memory_controller.read_8 destination_address
    let (r, cpu) := cpu.subtract_with_carry8 current source_value cpu.get_carry_flag
    let mc ← cpu.memory_controller.write_8 destination_address r
    some { cpu with memory_controller := mc }
  | .IndexedIndirectPointer => do
    let destination_address ← cpu.get_pointer_indexed_indirect_address
    let current ← cpu.memory_controller.read_8 destination_address
    let (r, cpu) := cpu.subtract_with_carry8 current source_value cpu.get_carry_flag
    let mc ← cpu.memory_controller.write_8 destination_address r
    some { cpu with memory_controller := mc }

/-- `CPU::reset`: enable, clear the wait latch, reset all mapped devices,
then latch PC from the reset vector and zero every other register and the
status byte. -/
def CPU.reset (cpu : CPU) : Option CPU := do
  let mc := cpu.memory_controller.reset
  let pc ← mc.read_16 RESET_VECTOR
  some { enable := true
         waiting_for_interrupt := false
         memory_controller := mc
         program_counter := pc
         stack_pointer := 0x0000
         index_x := 0x0000
         index_y := 0x0000
         status := 0x00
         a := 0x0000
         b := 0x0000
         c := 0x0000
         d := 0x0000 }

/-- `CPU::process(nmi, irq)`: one call of the execution engine.  Returns
the CPU unchanged when disabled; services the wait latch when waiting
(note the IRQ table address `[0xFFFA] + irq*2` is computed in `usize`,
NOT modulo `0x10000`); otherwise fetches, decodes and executes one
instruction. -/
def CPU.process (cpu : CPU) (nmi : Bool) (irq : Option Nat) : Option CPU := do
  if !cpu.enable then
    some cpu
  else if cpu.waiting_for_interrupt then do
    let cpu ←
      if nmi then do
        let cpu := { cpu with waiting_for_interrupt := false }
        let cpu := cpu.set_interrupt_disable_flag true
        let v ← cpu.memory_controller.read_16 NMI_VECTOR
        some { cpu with program_counter := v }
      else some cpu
    match irq with
    | none => some cpu
    | some irq_code => do
      let cpu := { cpu with waiting_for_interrupt := false }
      if cpu.get_interrupt_disable_flag then
        some cpu
      else do
        let cpu := cpu.set_interrupt_disable_flag true
        let base ← cpu.memory_controller.read_16 IRQ_VECTOR
        let v ← cpu.memory_controller.read_16 (base + irq_code * 2)
        some { cpu with program_counter := v }
  else do
    let (instruction, cpu) ← cpu.fetch16
    let operation := Operation.get_operation_from_instruction instruction
    let byte_mode := instruction &&& 0x0040 != 0
    let lo_hi := instruction &&& 0x0080 != 0
    let destination ← Location.get_destination_from_instruction instruction
    let source ← Location.get_source_from_instruction instruction
    match operation with
    | .Mov =>
      if byte_mode then cpu.execute_mov8 lo_hi destination source
      else cpu.execute_mov16 destination source
    | .Adc =>
      if byte_mode then cpu.execute_adc8 lo_hi destination source
      else cpu.execute_adc16 destination source
    | .Sbc =>
      if byte_mode then cpu.execute_sbc8 lo_hi destination source
      else cpu.execute_sbc16 destination source
    | .Stp => some { cpu with enable := false }
    | .Rst => cpu.reset
    | .Nop => some cpu

end VM

namespace VM

/-! ## Example configurations used by concrete evaluations -/

/-- A zero-filled 4 KiB RAM (`RAM::new(0x1000)`). -/
def exRam4K : Device := { kind := .ram, memory := fun _ => 0x00, size := 0x1000 }

/-- A 4 KiB RAM whose last byte is `0xAA` (as produced by a `poke`). -/
def exRamAA : Device :=
  { kind := .ram, memory := fun i => if i = 0xFFF then 0xAA else 0x00, size := 0x1000 }

/-- A 4 KiB RAM whose first byte is `0xBB`. -/
def exRamBB : Device :=
  { kind := .ram, memory := fun i => if i = 0 then 0xBB else 0x00, size := 0x1000 }

/-- A controller with `exRamAA` on block 0 and `exRamBB` on block 1 (the
result of two `map_device` calls on a fresh controller). -/
def exMcSplit : MemoryController :=
  { blocks := [some 0, some 1] ++ List.replicate 14 none
    mappings := [{ offset := 0, device := exRamAA }, { offset := 0x1000, device := exRamBB }] }

/-- A controller with a single RAM mapping on block 0. -/
def exMcOne : MemoryController :=
  { blocks := [some 0] ++ List.replicate 15 none
    mappings := [{ offset := 0, device := exRam4K }] }

/-- A 4 KiB RAM holding the word `0xFFFF` at device offsets
`0xFFA`/`0xFFB` (the IRQ vector slot once mapped at block 15). -/
def exRamVec : Device :=
  { kind := .ram
    memory := fun i => if i = 0xFFA then 0xFF else if i = 0xFFB then 0xFF else 0x00
    size := 0x1000 }

/-- A controller with `exRamVec` on block 15 (addresses `0xF000`–`0xFFFF`). -/
def exMcWait : MemoryController :=
  { blocks := List.replicate 15 none ++ [some 0]
    mappings := [{ offset := 0xF000, device := exRamVec }] }

/-- An enabled CPU parked on the wait-for-interrupt latch over `exMcWait`. -/
def exCpuWait : CPU :=
  { CPU.new with
    enable := true
    waiting_for_interrupt := true
    memory_controller := exMcWait }

/-- An enabled CPU with `A = 0xAB00` over an empty bus (all reads `0x00`). -/
def exCpuA : CPU :=
  { CPU.new with enable := true, a := 0xAB00 }

/-- A 16-byte ROM whose bytes are their own index. -/
def exRom : Device := { kind := .rom, memory := fun i => i % 0x100, size := 16 }

/-- Well-formedness of a CPU state: the Rust type invariants of the
`u16` registers used in address formation and of the owned controller. -/
def CPU.WF (cpu : CPU) : Prop :=
  cpu.memory_controller.WF ∧ cpu.program_counter < 0x10000 ∧
    cpu.index_x < 0x10000 ∧ cpu.index_y < 0x10000

end VM

namespace VM

/-! ## Bit-level helper lemmas for the status register -/

/-- Bitwise AND distributes over OR on `Nat`. -/
lemma nat_and_or_right (a b c : Nat) : (a ||| b) &&& c = (a &&& c) ||| (b &&& c) := by
  apply Nat.eq_of_testBit_eq
  intro i
  simp only [Nat.testBit_and, Nat.testBit_or, Bool.and_or_distrib_right]

/-- Bitwise AND is associative on `Nat`. -/
lemma nat_and_assoc (a b c : Nat) : (a &&& b) &&& c = a &&& (b &&& c) := by
  apply Nat.eq_of_testBit_eq
  intro i
  simp only [Nat.testBit_and, Bool.and_assoc]

/-- Setting a one-bit mask with OR and reading it back is nonzero. -/
lemma or_two_pow_and_ne_zero (s j : Nat) : (s ||| 2 ^ j) &&& 2 ^ j ≠ 0 := by
  rw [Nat.and_two_pow, Nat.testBit_or, Nat.testBit_two_pow_self]
  simp

/-- Reading mask `m` after OR-ing in disjoint bits `k` is unchanged. -/
lemma get_mask_or (s k m : Nat) (h : k &&& m = 0) :
    ((s ||| k) &&& m != 0) = (s &&& m != 0) := by
  rw [nat_and_or_right, h, Nat.or_zero]

/-- Reading mask `m` after AND-ing with a superset `k` of `m` is unchanged. -/
lemma get_mask_and (s k m : Nat) (h : k &&& m = m) :
    ((s &&& k) &&& m != 0) = (s &&& m != 0) := by
  rw [nat_and_assoc, h]

/-- Reading mask `m` after AND-ing with bits disjoint from `m` gives zero. -/
lemma get_mask_and_zero (s k m : Nat) (h : k &&& m = 0) :
    ((s &&& k) &&& m != 0) = false := by
  rw [nat_and_assoc, h, Nat.and_zero]
  rfl

/-- Reading a one-bit mask after OR-ing it in gives one. -/
lemma get_mask_or_self (s j : Nat) : ((s ||| 2 ^ j) &&& 2 ^ j != 0) = true := by
  have h := or_two_pow_and_ne_zero s j
  simpa using h

/-- Mask `m` of the status is unchanged by OR-ing in disjoint bits. -/
lemma mask_after_or (s k m : Nat) (h : k &&& m = 0) : (s ||| k) &&& m = s &&& m := by
  rw [nat_and_or_right, h, Nat.or_zero]

/-- Mask `m` of the status is unchanged by AND-ing with a superset of `m`. -/
lemma mask_after_and (s k m : Nat) (h : k &&& m = m) : (s &&& k) &&& m = s &&& m := by
  rw [nat_and_assoc, h]

/-- The MSB test of a 16-bit value via its mask. -/
lemma and_msb16 (x : Nat) : x &&& 0x8000 = if x.testBit 15 then 0x8000 else 0 := by
  have h := Nat.and_two_pow x 15
  norm_num at h
  rw [h]
  cases hx : x.testBit 15 <;> simp

/-- The MSB test of an 8-bit value via its mask. -/
lemma and_msb8 (x : Nat) : x &&& 0x80 = if x.testBit 7 then 0x80 else 0 := by
  have h := Nat.and_two_pow x 7
  norm_num at h
  rw [h]
  cases hx : x.testBit 7 <;> simp

end VM

namespace VM

/-! ## Status setter/getter interaction lemmas -/

/-- C readback after setting C. -/
lemma get_carry_set_carry (cpu : CPU) (b : Bool) :
    (cpu.set_carry_flag b).get_carry_flag = b := by
  cases b
  · exact get_mask_and_zero cpu.status 0xEF 0x10 (by decide)
  · exact get_mask_or_self cpu.status 4

/-- O readback after setting O. -/
lemma get_overflow_set_overflow (cpu : CPU) (b : Bool) :
    (cpu.set_overflow_flag b).get_overflow_flag = b := by
  cases b
  · exact get_mask_and_zero cpu.status 0xF7 0x08 (by decide)
  · exact get_mask_or_self cpu.status 3

/-- C is untouched by setting O. -/
lemma get_carry_set_overflow (cpu : CPU) (b : Bool) :
    (cpu.set_overflow_flag b).get_carry_flag = cpu.get_carry_flag := by
  cases b
  · exact get_mask_and cpu.status 0xF7 0x10 (by decide)
  · exact get_mask_or cpu.status 0x08 0x10 (by decide)

/-- C is untouched by setting S. -/
lemma get_carry_set_sign (cpu : CPU) (b : Bool) :
    (cpu.set_sign_flag b).get_carry_flag = cpu.get_carry_flag := by
  cases b
  · exact get_mask_and cpu.status 0x7F 0x10 (by decide)
  · exact get_mask_or cpu.status 0x80 0x10 (by decide)

/-- C is untouched by setting Z. -/
lemma get_carry_set_zero (cpu : CPU) (b : Bool) :
    (cpu.set_zero_flag b).get_carry_flag = cpu.get_carry_flag := by
  cases b
  · exact get_mask_and cpu.status 0xBF 0x10 (by decide)
  · exact get_mask_or cpu.status 0x40 0x10 (by decide)

/-- C is untouched by setting P. -/
lemma get_carry_set_parity (cpu : CPU) (b : Bool) :
    (cpu.set_parity_flag b).get_carry_flag = cpu.get_carry_flag := by
  cases b
  · exact get_mask_and cpu.status 0xDF 0x10 (by decide)
  · exact get_mask_or cpu.status 0x20 0x10 (by decide)

/-- O is untouched by setting S. -/
lemma get_overflow_set_sign (cpu : CPU) (b : Bool) :
    (cpu.set_sign_flag b).get_overflow_flag = cpu.get_overflow_flag := by
  cases b
  · exact get_mask_and cpu.status 0x7F 0x08 (by decide)
  · exact get_mask_or cpu.status 0x80 0x08 (by decide)

/-- O is untouched by setting Z. -/
lemma get_overflow_set_zero (cpu : CPU) (b : Bool) :
    (cpu.set_zero_flag b).get_overflow_flag = cpu.get_overflow_flag := by
  cases b
  · exact get_mask_and cpu.status 0xBF 0x08 (by decide)
  · exact get_mask_or cpu.status 0x40 0x08 (by decide)

/-- O is untouched by setting P. -/
lemma get_overflow_set_parity (cpu : CPU) (b : Bool) :
    (cpu.set_parity_flag b).get_overflow_flag = cpu.get_overflow_flag := by
  cases b
  · exact get_mask_and cpu.status 0xDF 0x08 (by decide)
  · exact get_mask_or cpu.status 0x20 0x08 (by decide)

/-- O is untouched by setting C. -/
lemma get_overflow_set_carry (cpu : CPU) (b : Bool) :
    (cpu.set_carry_flag b).get_overflow_flag = cpu.get_overflow_flag := by
  cases b
  · exact get_mask_and cpu.status 0xEF 0x08 (by decide)
  · exact get_mask_or cpu.status 0x10 0x08 (by decide)

/-- I is untouched by setting S. -/
lemma get_interrupt_set_sign (cpu : CPU) (b : Bool) :
    (cpu.set_sign_flag b).get_interrupt_disable_flag = cpu.get_interrupt_disable_flag := by
  cases b
  · exact get_mask_and cpu.status 0x7F 0x04 (by decide)
  · exact get_mask_or cpu.status 0x80 0x04 (by decide)

/-- I is untouched by setting Z. -/
lemma get_interrupt_set_zero (cpu : CPU) (b : Bool) :
    (cpu.set_zero_flag b).get_interrupt_disable_flag = cpu.get_interrupt_disable_flag := by
  cases b
  · exact get_mask_and cpu.status 0xBF 0x04 (by decide)
  · exact get_mask_or cpu.status 0x40 0x04 (by decide)

/-- I is untouched by setting P. -/
lemma get_interrupt_set_parity (cpu : CPU) (b : Bool) :
    (cpu.set_parity_flag b).get_interrupt_disable_flag = cpu.get_interrupt_disable_flag := by
  cases b
  · exact get_mask_and cpu.status 0xDF 0x04 (by decide)
  · exact get_mask_or cpu.status 0x20 0x04 (by decide)

/-- S readback after setting S. -/
lemma get_sign_set_sign (cpu : CPU) (b : Bool) :
    (cpu.set_sign_flag b).get_sign_flag = b := by
  cases b
  · exact get_mask_and_zero cpu.status 0x7F 0x80 (by decide)
  · exact get_mask_or_self cpu.status 7

/-- S is untouched by setting Z. -/
lemma get_sign_set_zero (cpu : CPU) (b : Bool) :
    (cpu.set_zero_flag b).get_sign_flag = cpu.get_sign_flag := by
  cases b
  · exact get_mask_and cpu.status 0xBF 0x80 (by decide)
  · exact get_mask_or cpu.status 0x40 0x80 (by decide)

/-- S is untouched by setting P. -/
lemma get_sign_set_parity (cpu : CPU) (b : Bool) :
    (cpu.set_parity_flag b).get_sign_flag = cpu.get_sign_flag := by
  cases b
  · exact get_mask_and cpu.status 0xDF 0x80 (by decide)
  · exact get_mask_or cpu.status 0x20 0x80 (by decide)

/-- Z readback after setting Z. -/
lemma get_zero_set_zero (cpu : CPU) (b : Bool) :
    (cpu.set_zero_flag b).get_zero_flag = b := by
  cases b
  · exact get_mask_and_zero cpu.status 0xBF 0x40 (by decide)
  · exact get_mask_or_self cpu.status 6

/-- Z is untouched by setting P. -/
lemma get_zero_set_parity (cpu : CPU) (b : Bool) :
    (cpu.set_parity_flag b).get_zero_flag = cpu.get_zero_flag := by
  cases b
  · exact get_mask_and cpu.status 0xDF 0x40 (by decide)
  · exact get_mask_or cpu.status 0x20 0x40 (by decide)

/-- P readback after setting P. -/
lemma get_parity_set_parity (cpu : CPU) (b : Bool) :
    (cpu.set_parity_flag b).get_parity_flag = b := by
  cases b
  · exact get_mask_and_zero cpu.status 0xDF 0x20 (by decide)
  · exact get_mask_or_self cpu.status 5

/-- The low five status bits (C, O, I, reserved) after setting S. -/
lemma low5_set_sign (cpu : CPU) (b : Bool) :
    (cpu.set_sign_flag b).status &&& 0x1F = cpu.status &&& 0x1F := by
  cases b
  · exact mask_after_and cpu.status 0x7F 0x1F (by decide)
  · exact mask_after_or cpu.status 0x80 0x1F (by decide)

/-- The low five status bits after setting Z. -/
lemma low5_set_zero (cpu : CPU) (b : Bool) :
    (cpu.set_zero_flag b).status &&& 0x1F = cpu.status &&& 0x1F := by
  cases b
  · exact mask_after_and cpu.status 0xBF 0x1F (by decide)
  · exact mask_after_or cpu.status 0x40 0x1F (by decide)

/-- The low five status bits after setting P. -/
lemma low5_set_parity (cpu : CPU) (b : Bool) :
    (cpu.set_parity_flag b).status &&& 0x1F = cpu.status &&& 0x1F := by
  cases b
  · exact mask_after_and cpu.status 0xDF 0x1F (by decide)
  · exact mask_after_or cpu.status 0x20 0x1F (by decide)

/-- C survives `set_flags_from_value16`. -/
lemma get_carry_set_flags16 (cpu : CPU) (v : Nat) :
    (cpu.set_flags_from_value16 v).get_carry_flag = cpu.get_carry_flag := by
  unfold CPU.set_flags_from_value16
  rw [get_carry_set_parity, get_carry_set_zero, get_carry_set_sign]

/-- C survives `set_flags_from_value8`. -/
lemma get_carry_set_flags8 (cpu : CPU) (v : Nat) :
    (cpu.set_flags_from_value8 v).get_carry_flag = cpu.get_carry_flag := by
  unfold CPU.set_flags_from_value8
  rw [get_carry_set_parity, get_carry_set_zero, get_carry_set_sign]

/-- O survives `set_flags_from_value16`. -/
lemma get_overflow_set_flags16 (cpu : CPU) (v : Nat) :
    (cpu.set_flags_from_value16 v).get_overflow_flag = cpu.get_overflow_flag := by
  unfold CPU.set_flags_from_value16
  rw [get_overflow_set_parity, get_overflow_set_zero, get_overflow_set_sign]

/-- O survives `set_flags_from_value8`. -/
lemma get_overflow_set_flags8 (cpu : CPU) (v : Nat) :
    (cpu.set_flags_from_value8 v).get_overflow_flag = cpu.get_overflow_flag := by
  unfold CPU.set_flags_from_value8
  rw [get_overflow_set_parity, get_overflow_set_zero, get_overflow_set_sign]

/-- I survives `set_flags_from_value16`. -/
lemma get_interrupt_set_flags16 (cpu : CPU) (v : Nat) :
    (cpu.set_flags_from_value16 v).get_interrupt_disable_flag = cpu.get_interrupt_disable_flag := by
  unfold CPU.set_flags_from_value16
  rw [get_interrupt_set_parity, get_interrupt_set_zero, get_interrupt_set_sign]

/-- I survives `set_flags_from_value8`. -/
lemma get_interrupt_set_flags8 (cpu : CPU) (v : Nat) :
    (cpu.set_flags_from_value8 v).get_interrupt_disable_flag = cpu.get_interrupt_disable_flag := by
  unfold CPU.set_flags_from_value8
  rw [get_interrupt_set_parity, get_interrupt_set_zero, get_interrupt_set_sign]

/-- The low five status bits survive `set_flags_from_value16`. -/
lemma low5_set_flags16 (cpu : CPU) (v : Nat) :
    (cpu.set_flags_from_value16 v).status &&& 0x1F = cpu.status &&& 0x1F := by
  unfold CPU.set_flags_from_value16
  rw [low5_set_parity, low5_set_zero, low5_set_sign]

/-- The low five status bits survive `set_flags_from_value8`. -/
lemma low5_set_flags8 (cpu : CPU) (v : Nat) :
    (cpu.set_flags_from_value8 v).status &&& 0x1F = cpu.status &&& 0x1F := by
  unfold CPU.set_flags_from_value8
  rw [low5_set_parity, low5_set_zero, low5_set_sign]

/-- The S bit written by the flag helpers tests bit 7 of the value. -/
lemma sign_bool_eq_testBit7 (v : Nat) : (v &&& 0x80 != 0) = v.testBit 7 := by
  rw [and_msb8]
  cases hx : v.testBit 7 <;> simp

/-- S readback after `set_flags_from_value16`: bit 7 of the value. -/
lemma get_sign_set_flags16 (cpu : CPU) (v : Nat) :
    (cpu.set_flags_from_value16 v).get_sign_flag = v.testBit 7 := by
  unfold CPU.set_flags_from_value16
  rw [get_sign_set_parity, get_sign_set_zero, get_sign_set_sign, sign_bool_eq_testBit7]

/-- S readback after `set_flags_from_value8`: bit 7 of the value. -/
lemma get_sign_set_flags8 (cpu : CPU) (v : Nat) :
    (cpu.set_flags_from_value8 v).get_sign_flag = v.testBit 7 := by
  unfold CPU.set_flags_from_value8
  rw [get_sign_set_parity, get_sign_set_zero, get_sign_set_sign, sign_bool_eq_testBit7]

/-- Z readback after `set_flags_from_value16`. -/
lemma get_zero_set_flags16 (cpu : CPU) (v : Nat) :
    (cpu.set_flags_from_value16 v).get_zero_flag = (v == 0) := by
  unfold CPU.set_flags_from_value16
  rw [get_zero_set_parity, get_zero_set_zero]

/-- Z readback after `set_flags_from_value8`. -/
lemma get_zero_set_flags8 (cpu : CPU) (v : Nat) :
    (cpu.set_flags_from_value8 v).get_zero_flag = (v == 0) := by
  unfold CPU.set_flags_from_value8
  rw [get_zero_set_parity, get_zero_set_zero]

/-- P readback after `set_flags_from_value16`. -/
lemma get_parity_set_flags16 (cpu : CPU) (v : Nat) :
    (cpu.set_flags_from_value16 v).get_parity_flag = (countOnes16 v % 2 == 0) := by
  unfold CPU.set_flags_from_value16
  rw [get_parity_set_parity]

/-- P readback after `set_flags_from_value8`. -/
lemma get_parity_set_flags8 (cpu : CPU) (v : Nat) :
    (cpu.set_flags_from_value8 v).get_parity_flag = (countOnes8 v % 2 == 0) := by
  unfold CPU.set_flags_from_value8
  rw [get_parity_set_parity]

end VM

namespace VM

/-- C3: for both widths, `ADC` with carry-in 0 is addition modulo `2^w`
with the carry flag the true carry-out and the overflow flag
`(sign lhs = sign rhs) ∧ (sign lhs ≠ sign result)`; `SBC` with carry-in 1
is subtraction modulo `2^w` with the carry flag `NOT borrow`. -/
theorem adc_sbc_arithmetic_laws :
    (∀ (cpu : CPU) (lhs rhs : Nat), lhs < 0x10000 → rhs < 0x10000 →
      ((cpu.add_with_carry16 lhs rhs false).1 = (lhs + rhs) % 0x10000 ∧
        (cpu.add_with_carry16 lhs rhs false).2.get_carry_flag = decide (0x10000 ≤ lhs + rhs) ∧
        (cpu.add_with_carry16 lhs rhs false).2.get_overflow_flag =
          (decide (lhs.testBit 15 = rhs.testBit 15) &&
            decide (lhs.testBit 15 ≠ ((lhs + rhs) % 0x10000).testBit 15))) ∧
      (((cpu.subtract_with_carry16 lhs rhs true).1 : Int) = ((lhs : Int) - rhs) % 0x10000 ∧
        (cpu.subtract_with_carry16 lhs rhs true).2.get_carry_flag = decide (rhs ≤ lhs))) ∧
    (∀ (cpu : CPU) (lhs rhs : Nat), lhs < 0x100 → rhs < 0x100 →
      ((cpu.add_with_carry8 lhs rhs false).1 = (lhs + rhs) % 0x100 ∧
        (cpu.add_with_carry8 lhs rhs false).2.get_carry_flag = decide (0x100 ≤ lhs + rhs) ∧
        (cpu.add_with_carry8 lhs rhs false).2.get_overflow_flag =
          (decide (lhs.testBit 7 = rhs.testBit 7) &&
            decide (lhs.testBit 7 ≠ ((lhs + rhs) % 0x100).testBit 7))) ∧
      (((cpu.subtract_with_carry8 lhs rhs true).1 : Int) = ((lhs : Int) - rhs) % 0x100 ∧
        (cpu.subtract_with_carry8 lhs rhs true).2.get_carry_flag = decide (rhs ≤ lhs))) := by
  constructor
  · intro cpu lhs rhs hl hr
    refine ⟨⟨?_, ?_, ?_⟩, ?_, ?_⟩
    · simp [CPU.add_with_carry16]
    · simp only [CPU.add_with_carry16]
      rw [get_carry_set_overflow, get_carry_set_carry]
      simp
    · simp only [CPU.add_with_carry16]
      rw [get_overflow_set_overflow]
      simp only [Bool.false_eq_true, if_false, Nat.add_zero]
      rw [and_msb16 lhs, and_msb16 rhs, and_msb16 ((lhs + rhs) % 0x10000)]
      cases h1 : lhs.testBit 15 <;> cases h2 : rhs.testBit 15 <;>
        cases h3 : ((lhs + rhs) % 0x10000).testBit 15 <;> simp
    · simp only [CPU.subtract_with_carry16]
      rw [Nat.mod_eq_of_lt hr]
      simp only [if_true, Nat.add_zero]
      omega
    · simp only [CPU.subtract_with_carry16]
      rw [get_carry_set_overflow, get_carry_set_carry]
      rw [Nat.mod_eq_of_lt hr]
      by_cases h : rhs ≤ lhs
      · simp [h, Nat.not_lt.mpr h]
      · simp [h, Nat.lt_of_not_le h]
  · intro cpu lhs rhs hl hr
    refine ⟨⟨?_, ?_, ?_⟩, ?_, ?_⟩
    · simp [CPU.add_with_carry8]
    · simp only [CPU.add_with_carry8]
      rw [get_carry_set_overflow, get_carry_set_carry]
      simp
    · simp only [CPU.add_with_carry8]
      rw [get_overflow_set_overflow]
      simp only [Bool.false_eq_true, if_false, Nat.add_zero]
      rw [and_msb8 lhs, and_msb8 rhs, and_msb8 ((lhs + rhs) % 0x100)]
      cases h1 : lhs.testBit 7 <;> cases h2 : rhs.testBit 7 <;>
        cases h3 : ((lhs + rhs) % 0x100).testBit 7 <;> simp
    · simp only [CPU.subtract_with_carry8]
      rw [Nat.mod_eq_of_lt hr]
      simp only [if_true, Nat.add_zero]
      omega
    · simp only [CPU.subtract_with_carry8]
      rw [get_carry_set_overflow, get_carry_set_carry]
      rw [Nat.mod_eq_of_lt hr]
      by_cases h : rhs ≤ lhs
      · simp [h, Nat.not_lt.mpr h]
      · simp [h, Nat.lt_of_not_le h]

end VM

namespace VM

/-- Witness for C3 at `lhs = 0x7FFF`, `rhs = 1` (16-bit) and `lhs = 0xF0`,
`rhs = 0x0F` (8-bit). -/
theorem adc_sbc_arithmetic_laws_witness :
    (((CPU.new.add_with_carry16 0x7FFF 0x0001 false).1 = (0x7FFF + 0x0001) % 0x10000 ∧
      (CPU.new.add_with_carry16 0x7FFF 0x0001 false).2.get_carry_flag =
        decide (0x10000 ≤ 0x7FFF + 0x0001) ∧
      (CPU.new.add_with_carry16 0x7FFF 0x0001 false).2.get_overflow_flag =
        (decide (Nat.testBit 0x7FFF 15 = Nat.testBit 0x0001 15) &&
          decide (Nat.testBit 0x7FFF 15 ≠ ((0x7FFF + 0x0001) % 0x10000).testBit 15))) ∧
      (((CPU.new.subtract_with_carry16 0x7FFF 0x0001 true).1 : Int) =
          ((0x7FFF : Int) - 0x0001) % 0x10000 ∧
        (CPU.new.subtract_with_carry16 0x7FFF 0x0001 true).2.get_carry_flag =
          decide (0x0001 ≤ 0x7FFF))) ∧
    (((CPU.new.add_with_carry8 0xF0 0x0F false).1 = (0xF0 + 0x0F) % 0x100 ∧
      (CPU.new.add_with_carry8 0xF0 0x0F false).2.get_carry_flag =
        decide (0x100 ≤ 0xF0 + 0x0F) ∧
      (CPU.new.add_with_carry8 0xF0 0x0F false).2.get_overflow_flag =
        (decide (Nat.testBit 0xF0 7 = Nat.testBit 0x0F 7) &&
          decide (Nat.testBit 0xF0 7 ≠ ((0xF0 + 0x0F) % 0x100).testBit 7))) ∧
      (((CPU.new.subtract_with_carry8 0xF0 0x0F true).1 : Int) =
          ((0xF0 : Int) - 0x0F) % 0x100 ∧
        (CPU.new.subtract_with_carry8 0xF0 0x0F true).2.get_carry_flag =
          decide (0x0F ≤ 0xF0))) :=
  ⟨adc_sbc_arithmetic_laws.1 CPU.new 0x7FFF 0x0001 (by decide) (by decide),
    adc_sbc_arithmetic_laws.2 CPU.new 0xF0 0x0F (by decide) (by decide)⟩

/-- C8: the `set_flags_from_value` helpers set only S, Z and P — C, O, I
and the reserved low bits are unchanged — with S taken from bit 7 of the
value for BOTH widths (so a 16-bit result with only bit 15 set reads back
S = 0), Z iff the value is zero, and P iff the popcount is even. -/
theorem set_flags_from_value_contract :
    (∀ (cpu : CPU) (v : Nat),
      (cpu.set_flags_from_value16 v).get_carry_flag = cpu.get_carry_flag ∧
      (cpu.set_flags_from_value16 v).get_overflow_flag = cpu.get_overflow_flag ∧
      (cpu.set_flags_from_value16 v).get_interrupt_disable_flag =
        cpu.get_interrupt_disable_flag ∧
      (cpu.set_flags_from_value16 v).status &&& 0x1F = cpu.status &&& 0x1F ∧
      (cpu.set_flags_from_value16 v).get_sign_flag = v.testBit 7 ∧
      (cpu.set_flags_from_value16 v).get_zero_flag = (v == 0) ∧
      (cpu.set_flags_from_value16 v).get_parity_flag = (countOnes16 v % 2 == 0)) ∧
    (∀ (cpu : CPU) (v : Nat),
      (cpu.set_flags_from_value8 v).get_carry_flag = cpu.get_carry_flag ∧
      (cpu.set_flags_from_value8 v).get_overflow_flag = cpu.get_overflow_flag ∧
      (cpu.set_flags_from_value8 v).get_interrupt_disable_flag =
        cpu.get_interrupt_disable_flag ∧
      (cpu.set_flags_from_value8 v).status &&& 0x1F = cpu.status &&& 0x1F ∧
      (cpu.set_flags_from_value8 v).get_sign_flag = v.testBit 7 ∧
      (cpu.set_flags_from_value8 v).get_zero_flag = (v == 0) ∧
      (cpu.set_flags_from_value8 v).get_parity_flag = (countOnes8 v % 2 == 0)) ∧
    (∀ cpu : CPU, (cpu.set_flags_from_value16 0x8000).get_sign_flag = false) :=
  ⟨fun cpu v =>
    ⟨get_carry_set_flags16 cpu v, get_overflow_set_flags16 cpu v,
      get_interrupt_set_flags16 cpu v, low5_set_flags16 cpu v,
      get_sign_set_flags16 cpu v, get_zero_set_flags16 cpu v,
      get_parity_set_flags16 cpu v⟩,
    fun cpu v =>
    ⟨get_carry_set_flags8 cpu v, get_overflow_set_flags8 cpu v,
      get_interrupt_set_flags8 cpu v, low5_set_flags8 cpu v,
      get_sign_set_flags8 cpu v, get_zero_set_flags8 cpu v,
      get_parity_set_flags8 cpu v⟩,
    fun cpu => by rw [get_sign_set_flags16]; decide⟩

end VM

namespace VM

/-! ## Totality of the bus operations on well-formed controllers -/

/-- Device reads return bytes on well-formed devices. -/
lemma Device.read_8_lt (d : Device) (h : d.WF) (a : Nat) : d.read_8 a < 0x100 := by
  unfold Device.read_8
  split
  · omega
  · exact h a (by omega)

/-- Device 16-bit reads return 16-bit values on well-formed devices. -/
lemma Device.read_16_lt (d : Device) (h : d.WF) (a : Nat) : d.read_16 a < 0x10000 := by
  unfold Device.read_16
  have h1 : (if a < d.size then d.memory a else 0) < 2 ^ 16 := by
    split
    · have := h a (by omega)
      omega
    · omega
  have h2 : (if a + 1 < d.size then d.memory (a + 1) <<< 8 else 0) < 2 ^ 16 := by
    split
    · have := h (a + 1) (by omega)
      rw [Nat.shiftLeft_eq]
      omega
    · omega
  have := Nat.or_lt_two_pow h1 h2
  omega

/-- On a well-formed controller every 16-bit address has a block-table
entry, and a named mapping translates without underflow. -/
lemma blocks_entry_exists (mc : MemoryController) (h : mc.WF) (a : Nat) (ha : a < 0x10000) :
    ∃ s, mc.blocks[a / MAP_BLOCK_SIZE]? = some s := by
  have hlen : a / MAP_BLOCK_SIZE < mc.blocks.length := by
    rw [h.1]
    show a / MAP_BLOCK_SIZE < 16
    unfold MAP_BLOCK_SIZE
    omega
  exact ⟨mc.blocks[a / MAP_BLOCK_SIZE], List.getElem?_eq_getElem hlen⟩

/-- `read_8` succeeds with a byte at any 16-bit address of a well-formed
controller. -/
lemma read_8_total (mc : MemoryController) (h : mc.WF) (a : Nat) (ha : a < 0x10000) :
    ∃ v, mc.read_8 a = some v ∧ v < 0x100 := by
  obtain ⟨s, hs⟩ := blocks_entry_exists mc h a ha
  unfold MemoryController.read_8
  rw [hs]
  match s with
  | none => exact ⟨0x00, rfl, by omega⟩
  | some mi =>
    obtain ⟨m, hm, hoff, hwf⟩ := h.2 (a / MAP_BLOCK_SIZE) mi hs
    have hle : m.offset ≤ a := le_trans hoff (Nat.div_mul_le_self a MAP_BLOCK_SIZE)
    simp only [hm]
    rw [if_neg (by omega)]
    exact ⟨_, rfl, Device.read_8_lt m.device hwf _⟩

/-- `read_16` succeeds with a 16-bit value at any 16-bit address of a
well-formed controller. -/
lemma read_16_total (mc : MemoryController) (h : mc.WF) (a : Nat) (ha : a < 0x10000) :
    ∃ v, mc.read_16 a = some v ∧ v < 0x10000 := by
  obtain ⟨s, hs⟩ := blocks_entry_exists mc h a ha
  unfold MemoryController.read_16
  rw [hs]
  match s with
  | none => exact ⟨0x0000, rfl, by omega⟩
  | some mi =>
    obtain ⟨m, hm, hoff, hwf⟩ := h.2 (a / MAP_BLOCK_SIZE) mi hs
    have hle : m.offset ≤ a := le_trans hoff (Nat.div_mul_le_self a MAP_BLOCK_SIZE)
    simp only [hm]
    rw [if_neg (by omega)]
    exact ⟨_, rfl, Device.read_16_lt m.device hwf _⟩

/-- `write_8` succeeds at any 16-bit address of a well-formed controller. -/
lemma write_8_total (mc : MemoryController) (h : mc.WF) (a : Nat) (ha : a < 0x10000) (v : Nat) :
    ∃ mc', mc.write_8 a v = some mc' := by
  obtain ⟨s, hs⟩ := blocks_entry_exists mc h a ha
  unfold MemoryController.write_8
  rw [hs]
  match s with
  | none => exact ⟨mc, rfl⟩
  | some mi =>
    obtain ⟨m, hm, hoff, hwf⟩ := h.2 (a / MAP_BLOCK_SIZE) mi hs
    have hle : m.offset ≤ a := le_trans hoff (Nat.div_mul_le_self a MAP_BLOCK_SIZE)
    simp only [hm]
    rw [if_neg (by omega)]
    exact ⟨_, rfl⟩

/-- `write_16` succeeds at any 16-bit address of a well-formed controller. -/
lemma write_16_total (mc : MemoryController) (h : mc.WF) (a : Nat) (ha : a < 0x10000) (v : Nat) :
    ∃ mc', mc.write_16 a v = some mc' := by
  obtain ⟨s, hs⟩ := blocks_entry_exists mc h a ha
  unfold MemoryController.write_16
  rw [hs]
  match s with
  | none => exact ⟨mc, rfl⟩
  | some mi =>
    obtain ⟨m, hm, hoff, hwf⟩ := h.2 (a / MAP_BLOCK_SIZE) mi hs
    have hle : m.offset ≤ a := le_trans hoff (Nat.div_mul_le_self a MAP_BLOCK_SIZE)
    simp only [hm]
    rw [if_neg (by omega)]
    exact ⟨_, rfl⟩

/-- `read_8` through a mapped block. -/
lemma read_8_mapped (mc : MemoryController) (a mi : Nat) (m : Mapping)
    (hs : mc.blocks[a / MAP_BLOCK_SIZE]? = some (some mi))
    (hm : mc.mappings[mi]? = some m) (hle : m.offset ≤ a) :
    mc.read_8 a = some (m.device.read_8 (a - m.offset)) := by
  unfold MemoryController.read_8
  rw [hs]
  simp only [hm]
  rw [if_neg (by omega)]

/-- `read_16` through a mapped block. -/
lemma read_16_mapped (mc : MemoryController) (a mi : Nat) (m : Mapping)
    (hs : mc.blocks[a / MAP_BLOCK_SIZE]? = some (some mi))
    (hm : mc.mappings[mi]? = some m) (hle : m.offset ≤ a) :
    mc.read_16 a = some (m.device.read_16 (a - m.offset)) := by
  unfold MemoryController.read_16
  rw [hs]
  simp only [hm]
  rw [if_neg (by omega)]

/-- `write_8` through a mapped block. -/
lemma write_8_mapped (mc : MemoryController) (a v mi : Nat) (m : Mapping)
    (hs : mc.blocks[a / MAP_BLOCK_SIZE]? = some (some mi))
    (hm : mc.mappings[mi]? = some m) (hle : m.offset ≤ a) :
    mc.write_8 a v = some { mc with mappings := mc.mappings.set mi { offset := m.offset, device := m.device.write_8 (a - m.offset) v } } := by
  unfold MemoryController.write_8
  rw [hs]
  simp only [hm]
  rw [if_neg (by omega)]

/-- `write_16` through a mapped block. -/
lemma write_16_mapped (mc : MemoryController) (a v mi : Nat) (m : Mapping)
    (hs : mc.blocks[a / MAP_BLOCK_SIZE]? = some (some mi))
    (hm : mc.mappings[mi]? = some m) (hle : m.offset ≤ a) :
    mc.write_16 a v = some { mc with mappings := mc.mappings.set mi { offset := m.offset, device := m.device.write_16 (a - m.offset) v } } := by
  unfold MemoryController.write_16
  rw [hs]
  simp only [hm]
  rw [if_neg (by omega)]

/-- The fresh controller is well-formed. -/
lemma new_WF : MemoryController.new.WF := by
  constructor
  · simp [MemoryController.new]
  · intro b mi hb
    simp only [MemoryController.new, List.getElem?_replicate] at hb
    split at hb <;> simp_all

end VM

namespace VM

/-- C6 counterexample: at address `0x10000` the block index is 16, past
the 16-slot block table, so `read_8` panics (embedded as `none`) instead
of returning `0x00` — "bus reads never fail for any address" is false. -/
theorem read_8_beyond_address_space_panics :
    MemoryController.new.read_8 0x10000 = none ∧ (none : Option Nat) ≠ some 0x00 := by
  constructor
  · rfl
  · simp

/-- C6 (amended): for addresses whose block slot is empty, reads return
zero and writes leave the controller unchanged; and within the 16-bit
address space (block index < 16) no bus access fails on a well-formed
controller. -/
theorem unmapped_bus_contract :
    ∀ (mc : MemoryController) (a v : Nat), mc.WF →
      (mc.blocks[a / MAP_BLOCK_SIZE]? = some none →
        mc.read_8 a = some 0x00 ∧ mc.read_16 a = some 0x0000 ∧
        mc.write_8 a v = some mc ∧ mc.write_16 a v = some mc) ∧
      (a < 0x10000 →
        (mc.read_8 a).isSome ∧ (mc.read_16 a).isSome ∧
        (mc.write_8 a v).isSome ∧ (mc.write_16 a v).isSome) := by
  intro mc a v hwf
  constructor
  · intro hempty
    refine ⟨?_, ?_, ?_, ?_⟩
    · unfold MemoryController.read_8
      simp only [hempty]
    · unfold MemoryController.read_16
      simp only [hempty]
    · unfold MemoryController.write_8
      simp only [hempty]
    · unfold MemoryController.write_16
      simp only [hempty]
  · intro ha
    obtain ⟨v1, h1, _⟩ := read_8_total mc hwf a ha
    obtain ⟨v2, h2, _⟩ := read_16_total mc hwf a ha
    obtain ⟨mc1, h3⟩ := write_8_total mc hwf a ha v
    obtain ⟨mc2, h4⟩ := write_16_total mc hwf a ha v
    rw [h1, h2, h3, h4]
    exact ⟨rfl, rfl, rfl, rfl⟩

/-- Witness for the amended C6 at the fresh controller and `a = 0x1234`. -/
theorem unmapped_bus_contract_witness :
    (MemoryController.new.read_8 0x1234 = some 0x00 ∧
      MemoryController.new.read_16 0x1234 = some 0x0000 ∧
      MemoryController.new.write_8 0x1234 0x42 = some MemoryController.new ∧
      MemoryController.new.write_16 0x1234 0x42 = some MemoryController.new) ∧
    ((MemoryController.new.read_8 0x1234).isSome ∧
      (MemoryController.new.read_16 0x1234).isSome ∧
      (MemoryController.new.write_8 0x1234 0x42).isSome ∧
      (MemoryController.new.write_16 0x1234 0x42).isSome) :=
  ⟨(unmapped_bus_contract MemoryController.new 0x1234 0x42 new_WF).1 (by decide),
    (unmapped_bus_contract MemoryController.new 0x1234 0x42 new_WF).2 (by decide)⟩

end VM

namespace VM

/-- `poke_bytes` succeeds when the poked range is within the device and
overwrites exactly the addressed cells. -/
lemma poke_bytes_spec (bytes : List Nat) (d : Device) (a : Nat)
    (hb : a + bytes.length ≤ d.size) :
    ∃ d', d.poke_bytes a bytes = some d' ∧ d'.size = d.size ∧ d'.kind = d.kind ∧
      (∀ i, i < bytes.length → d'.memory (a + i) = bytes.getD i 0 % 0x100) ∧
      (∀ j, j < a → d'.memory j = d.memory j) := by
  induction bytes generalizing d a with
  | nil =>
    exact ⟨d, rfl, rfl, rfl, fun i hi => absurd hi (by simp), fun j _ => rfl⟩
  | cons byte rest ih =>
    have ha : a < d.size := by
      simp only [List.length_cons] at hb
      omega
    obtain ⟨d', hpoke, hsize, hkind, hmem, hframe⟩ :=
      ih { d with memory := fun j => if j = a then byte % 0x100 else d.memory j } (a + 1)
        (by show a + 1 + rest.length ≤ d.size; simp only [List.length_cons] at hb; omega)
    refine ⟨d', ?_, hsize, hkind, ?_, ?_⟩
    · unfold Device.poke_bytes
      rw [if_pos ha]
      exact hpoke
    · intro i hi
      cases i with
      | zero =>
        have h0 := hframe a (by omega)
        simp only [Nat.add_zero, List.getD_cons_zero]
        rw [h0]
        simp
      | succ i' =>
        have h1 := hmem i' (by simpa using hi)
        have harr : a + (i' + 1) = a + 1 + i' := by omega
        rw [harr, h1, List.getD_cons_succ]
    · intro j hj
      have h1 := hframe j (by omega)
      rw [h1]
      simp only []
      rw [if_neg (by omega)]

/-- C9: ROM bus writes and reset leave the contents unchanged; `poke`
does mutate the addressed bytes (readable back with `read_8`); RAM reset
zero-fills, so in-range reads return `0x00` afterwards. -/
theorem rom_ram_device_contract :
    ∀ (dr dm : Device) (a v i b : Nat) (bytes : List Nat),
      dr.kind = .rom → dm.kind = .ram →
      a + bytes.length ≤ dr.size → (∀ x ∈ bytes, x < 0x100) → i < bytes.length →
      b < dm.size →
      (dr.write_8 a v = dr ∧ dr.write_16 a v = dr ∧ dr.reset = dr) ∧
      (dr.poke_bytes a bytes).map (fun d2 => d2.read_8 (a + i)) = some (bytes.getD i 0) ∧
      dm.reset.read_8 b = 0x00 := by
  intro dr dm a v i b bytes hrom hram hin hbytes hi hb
  refine ⟨⟨?_, ?_, ?_⟩, ?_, ?_⟩
  · unfold Device.write_8
    rw [hrom]
  · unfold Device.write_16
    rw [hrom]
  · unfold Device.reset
    rw [hrom]
  · obtain ⟨d', hpoke, hsize, _, hmem, _⟩ := poke_bytes_spec bytes dr a hin
    rw [hpoke]
    simp only [Option.map]
    have hlt : bytes.getD i 0 < 0x100 := by
      rw [List.getD_eq_getElem bytes 0 hi]
      exact hbytes _ (List.getElem_mem hi)
    have hread : d'.read_8 (a + i) = bytes.getD i 0 := by
      unfold Device.read_8
      rw [if_neg (by rw [hsize]; omega), hmem i hi, Nat.mod_eq_of_lt hlt]
    rw [hread]
  · unfold Device.reset
    rw [hram]
    unfold Device.read_8
    rw [if_neg (by simpa using hb)]

/-- Witness for C9 with `exRom`, `exRam4K`, `bytes = [7, 9]`, `i = 1`. -/
theorem rom_ram_device_contract_witness :
    (exRom.write_8 2 5 = exRom ∧ exRom.write_16 2 5 = exRom ∧ exRom.reset = exRom) ∧
    (exRom.poke_bytes 2 [7, 9]).map (fun d2 => d2.read_8 (2 + 1)) = some ([7, 9].getD 1 0) ∧
    exRam4K.reset.read_8 3 = 0x00 :=
  rom_ram_device_contract exRom exRam4K 2 5 1 3 [7, 9] rfl rfl (by decide)
    (by decide) (by decide) (by decide)

end VM

namespace VM

/-- `swap_remove` on a nonempty vector shortens it by one. -/
lemma swapRemove_length (l : List Mapping) (i : Nat) (hl : l ≠ []) :
    (swapRemove l i).length = l.length - 1 := by
  unfold swapRemove
  cases hlast : l.getLast? with
  | none => rw [List.getLast?_eq_none_iff] at hlast; exact absurd hlast hl
  | some last => rw [List.length_dropLast, List.length_set]

/-- `swap_remove` leaves entries other than the removed index and the
tail untouched. -/
lemma swapRemove_getElem_ne (l : List Mapping) (i h' : Nat) (hne : h' ≠ i)
    (hlt : h' < l.length - 1) :
    (swapRemove l i)[h']? = l[h']? := by
  unfold swapRemove
  cases hlast : l.getLast? with
  | none =>
    rfl
  | some last =>
    rw [List.getElem?_dropLast]
    rw [List.length_set]
    rw [if_pos hlt]
    exact List.getElem?_set_ne (fun hih => hne hih.symm)

/-- `get_device` through the mapping vector's optional indexing. -/
lemma get_device_eq (mc : MemoryController) (i : Nat) :
    mc.get_device i = (match mc.mappings[i]? with
      | some m => .ok m.device
      | none => .error "Index is out-of-bounds") := by
  unfold MemoryController.get_device
  split
  · next hlt =>
      rw [List.getElem?_eq_getElem hlt]
      rfl
  · next hge => rw [List.getElem?_eq_none (by omega)]

/-- C5 counterexample: removing the only mapping (`h = n-1 = 0`) empties
the slots that named it; the claim as stated also requires those same
slots (they named the former last index `n-1`) to now name `h`, i.e.
`some 0`, which fails. -/
theorem unmap_last_handle_counterexample :
    exMcOne.blocks[0]? = some (some (exMcOne.mappings.length - 1)) ∧
    (exMcOne.unmap_device 0).map (fun m => m.blocks[0]?) = .ok (some none) ∧
    (Except.ok (some none) : Except String (Option (Option Nat))) ≠
      .ok (some (some 0)) := by
  refine ⟨by decide, by rfl, by simp⟩

/-- C5 (amended): `unmap_device h` with `h ≥ n` fails with the
out-of-range error; with `h < n` it succeeds, slots that named `h` are
emptied, slots that named the former last index `n-1` — when `n-1 ≠ h` —
are renamed to `h`, all other slots are unchanged, and `get_device h'`
for `h' < n-1`, `h' ≠ h` returns the same device as before. -/
theorem unmap_device_contract :
    (∀ (mc : MemoryController) (h : Nat), mc.mappings.length ≤ h →
      mc.unmap_device h = .error "Index is out-of-bounds") ∧
    (∀ (mc : MemoryController) (h j : Nat), h < mc.mappings.length →
      mc.blocks[j]? = some (some h) →
      (mc.unmap_device h).map (fun m => m.blocks[j]?) = .ok (some none)) ∧
    (∀ (mc : MemoryController) (h j : Nat), h < mc.mappings.length →
      h ≠ mc.mappings.length - 1 →
      mc.blocks[j]? = some (some (mc.mappings.length - 1)) →
      (mc.unmap_device h).map (fun m => m.blocks[j]?) = .ok (some (some h))) ∧
    (∀ (mc : MemoryController) (h j : Nat) (s : Option Nat), h < mc.mappings.length →
      mc.blocks[j]? = some s → s ≠ some h → s ≠ some (mc.mappings.length - 1) →
      (mc.unmap_device h).map (fun m => m.blocks[j]?) = .ok (some s)) ∧
    (∀ (mc : MemoryController) (h h' : Nat), h < mc.mappings.length →
      h' < mc.mappings.length - 1 → h' ≠ h →
      (mc.unmap_device h).map (fun m => m.get_device h') = .ok (mc.get_device h')) := by
  have hne : ∀ (mc : MemoryController) (h : Nat), h < mc.mappings.length →
      mc.mappings ≠ [] := by
    intro mc h hlt hnil
    rw [hnil] at hlt
    simp at hlt
  have hlen : ∀ (mc : MemoryController) (h : Nat), h < mc.mappings.length →
      (swapRemove mc.mappings h).length = mc.mappings.length - 1 := by
    intro mc h hlt
    exact swapRemove_length mc.mappings h (hne mc h hlt)
  refine ⟨?_, ?_, ?_, ?_, ?_⟩
  · intro mc h hge
    unfold MemoryController.unmap_device
    rw [if_pos hge]
  · intro mc h j hlt hj
    unfold MemoryController.unmap_device
    rw [if_neg (by omega)]
    simp only [Except.map, List.getElem?_map, hj]
    simp
  · intro mc h j hlt hneq hj
    unfold MemoryController.unmap_device
    rw [if_neg (by omega)]
    simp only [Except.map, List.getElem?_map, hj]
    rw [hlen mc h hlt]
    simp [Ne.symm hneq]
  · intro mc h j s hlt hj hs1 hs2
    unfold MemoryController.unmap_device
    rw [if_neg (by omega)]
    simp only [Except.map, List.getElem?_map, hj]
    rw [hlen mc h hlt]
    simp [hs1, hs2]
  · intro mc h h' hlt hlt' hne'
    unfold MemoryController.unmap_device
    rw [if_neg (by omega)]
    simp only [Except.map]
    rw [get_device_eq, get_device_eq]
    simp only []
    rw [swapRemove_getElem_ne mc.mappings h h' hne' hlt']

/-- Witness for the amended C5 on `exMcSplit` (two mappings, blocks 0
and 1). -/
theorem unmap_device_contract_witness :
    exMcSplit.unmap_device 5 = .error "Index is out-of-bounds" ∧
    (exMcSplit.unmap_device 0).map (fun m => m.blocks[0]?) = .ok (some none) ∧
    (exMcSplit.unmap_device 0).map (fun m => m.blocks[1]?) = .ok (some (some 0)) ∧
    (exMcSplit.unmap_device 0).map (fun m => m.blocks[2]?) = .ok (some none) ∧
    (exMcSplit.unmap_device 1).map (fun m => m.get_device 0) = .ok (exMcSplit.get_device 0) :=
  ⟨unmap_device_contract.1 exMcSplit 5 (by decide),
    unmap_device_contract.2.1 exMcSplit 0 0 (by decide) (by decide),
    unmap_device_contract.2.2.1 exMcSplit 0 1 (by decide) (by decide) (by decide),
    unmap_device_contract.2.2.2.1 exMcSplit 0 2 none (by decide) (by decide) (by decide)
      (by decide),
    unmap_device_contract.2.2.2.2 exMcSplit 1 0 (by decide) (by decide) (by decide)⟩

end VM

namespace VM

/-- The overlap scan panics once it walks past the 16-slot table: the
range overflows 16, is nonempty, and every in-range slot from `first` on
is free. -/
lemma blocksFreeScan_panics (blocks : List (Option Nat)) (hlen : blocks.length = 16) :
    ∀ cnt first, 16 < first + cnt → 0 < cnt →
      (∀ b, b < 16 → first ≤ b → blocks[b]? = some none) →
      blocksFreeScan blocks first cnt = none := by
  intro cnt
  induction cnt with
  | zero => intro first h1 h2 _; omega
  | succ n ih =>
    intro first hsum _ hfree
    by_cases hf : first < 16
    · unfold blocksFreeScan
      rw [hfree first hf (le_refl first)]
      exact ih (first + 1) (by omega) (by omega) (fun b hb hfb => hfree b hb (by omega))
    · unfold blocksFreeScan
      rw [List.getElem?_eq_none (by omega)]

/-- The overlap scan cannot panic when the range fits the table. -/
lemma blocksFreeScan_no_panic (blocks : List (Option Nat)) (hlen : blocks.length = 16) :
    ∀ cnt first, first + cnt ≤ 16 → ∃ r, blocksFreeScan blocks first cnt = some r := by
  intro cnt
  induction cnt with
  | zero => intro first _; exact ⟨none, rfl⟩
  | succ n ih =>
    intro first hsum
    have hf : first < blocks.length := by omega
    unfold blocksFreeScan
    rw [List.getElem?_eq_getElem hf]
    match blocks[first] with
    | some _ => exact ⟨some first, rfl⟩
    | none => exact ih (first + 1) (by omega)

/-- The overlap scan reports an occupied slot when the range holds one
and fits the table. -/
lemma blocksFreeScan_finds_occupied (blocks : List (Option Nat)) (hlen : blocks.length = 16) :
    ∀ cnt first, first + cnt ≤ 16 →
      (∃ b, first ≤ b ∧ b < first + cnt ∧ blocks[b]? ≠ some none) →
      ∃ c, blocksFreeScan blocks first cnt = some (some c) := by
  intro cnt
  induction cnt with
  | zero =>
    intro first _ hocc
    obtain ⟨b, h1, h2, _⟩ := hocc
    omega
  | succ n ih =>
    intro first hsum hocc
    have hf : first < blocks.length := by omega
    unfold blocksFreeScan
    rw [List.getElem?_eq_getElem hf]
    match hval : blocks[first] with
    | some _ => exact ⟨first, rfl⟩
    | none =>
      obtain ⟨b, h1, h2, h3⟩ := hocc
      have hbne : b ≠ first := by
        intro hbe
        apply h3
        rw [hbe, List.getElem?_eq_getElem hf, hval]
      exact ih (first + 1) (by omega) ⟨b, by omega, by omega, h3⟩

/-- The overlap scan reports a fully free range. -/
lemma blocksFreeScan_all_free (blocks : List (Option Nat)) :
    ∀ cnt first, (∀ b, b < first + cnt → first ≤ b → blocks[b]? = some none) →
      blocksFreeScan blocks first cnt = some none := by
  intro cnt
  induction cnt with
  | zero => intro first _; rfl
  | succ n ih =>
    intro first hfree
    unfold blocksFreeScan
    rw [hfree first (by omega) (le_refl first)]
    exact ih (first + 1) (fun b hb hfb => hfree b (by omega) (by omega))

/-- The overlap scan panics **iff** it walks past the table: the range
overflows 16, is nonempty, and every in-range slot from `first` on is
free (an occupied slot would stop it with an error first). -/
lemma blocksFreeScan_none_iff (blocks : List (Option Nat)) (hlen : blocks.length = 16) :
    ∀ cnt first, blocksFreeScan blocks first cnt = none ↔
      (16 < first + cnt ∧ 0 < cnt ∧ ∀ b, b < 16 → first ≤ b → blocks[b]? = some none) := by
  intro cnt
  induction cnt with
  | zero =>
    intro first
    constructor
    · intro h
      simp [blocksFreeScan] at h
    · rintro ⟨h1, h2, _⟩
      omega
  | succ n ih =>
    intro first
    constructor
    · intro h
      unfold blocksFreeScan at h
      rcases hval : blocks[first]? with _ | (_ | v)
      · have hge : blocks.length ≤ first := List.getElem?_eq_none_iff.mp hval
        exact ⟨by omega, by omega, fun b hb hfb => by omega⟩
      · rw [hval] at h
        have hh : blocksFreeScan blocks (first + 1) n = none := h
        obtain ⟨h1, h2, h3⟩ := (ih (first + 1)).mp hh
        refine ⟨by omega, by omega, ?_⟩
        intro b hb hfb
        rcases Nat.eq_or_lt_of_le hfb with he | hlt
        · rw [← he]
          exact hval
        · exact h3 b hb hlt
      · rw [hval] at h
        exact absurd (h : some (some first) = none) (by simp)
    · rintro ⟨h1, h2, h3⟩
      exact blocksFreeScan_panics blocks hlen (n + 1) first h1 h2 h3

/-- An occupied in-range slot always stops the scan with an occupied
report, even when the requested range overflows the table: the scan
walks upward and reaches the occupied slot (below 16) before any
out-of-bounds index. -/
lemma blocksFreeScan_occupied_stops (blocks : List (Option Nat)) (hlen : blocks.length = 16) :
    ∀ cnt first, (∃ b, first ≤ b ∧ b < first + cnt ∧ b < 16 ∧ blocks[b]? ≠ some none) →
      ∃ c, blocksFreeScan blocks first cnt = some (some c) := by
  intro cnt
  induction cnt with
  | zero =>
    rintro first ⟨b, h1, h2, _, _⟩
    omega
  | succ n ih =>
    rintro first ⟨b, h1, h2, h3, h4⟩
    have hf : first < blocks.length := by omega
    unfold blocksFreeScan
    rw [List.getElem?_eq_getElem hf]
    match hval : blocks[first] with
    | some _ => exact ⟨first, rfl⟩
    | none =>
      have hbne : b ≠ first := by
        intro hbe
        apply h4
        rw [hbe, List.getElem?_eq_getElem hf, hval]
      exact ih (first + 1) ⟨b, by omega, by omega, h3, h4⟩

/-- `exRamAA` holds bytes. -/
lemma exRamAA_WF : exRamAA.WF := by
  intro i hi
  unfold exRamAA
  dsimp only
  split <;> omega

/-- `exRamBB` holds bytes. -/
lemma exRamBB_WF : exRamBB.WF := by
  intro i hi
  unfold exRamBB
  dsimp only
  split <;> omega

/-- `exMcSplit` is well-formed. -/
lemma exMcSplit_WF : exMcSplit.WF := by
  refine ⟨by decide, ?_⟩
  intro b mi hb
  match b with
  | 0 =>
    simp only [exMcSplit] at hb ⊢
    simp at hb
    subst hb
    exact ⟨_, rfl, by decide, exRamAA_WF⟩
  | 1 =>
    simp only [exMcSplit] at hb ⊢
    simp at hb
    subst hb
    exact ⟨_, rfl, by decide, exRamBB_WF⟩
  | (n + 2) =>
    simp only [exMcSplit, List.cons_append, List.getElem?_cons_succ,
      List.nil_append, List.getElem?_replicate] at hb
    split at hb <;> simp_all

/-- C10 counterexample: a call with `first_block + blocks > 16` but an
empty range (`blocks = 0`) does not panic — the scan loop never runs and
the device is mapped with `Ok(0)`. -/
theorem map_device_empty_range_counterexample :
    16 < 17 + 0 ∧ (MemoryController.new.map_device 17 0 exRam4K).isPanic = false ∧
    (MemoryController.new.map_device 17 0 exRam4K).index? = some 0 := by
  refine ⟨by decide, rfl, rfl⟩

/-- C10 (amended): `map_device` panics **exactly** when the scan walks
past the block table — the range overflows 16, is nonempty, and every
in-range slot from `first_block` on is free (the iff in the fifth part);
an occupied in-range slot always stops the scan with an error, even
when the requested range overflows the table (sixth part).  With
`first_block + blocks ≤ 16` the call never panics and either fails on
an occupied block or appends the mapping and returns its index. -/
theorem map_device_contract :
    (∀ (mc : MemoryController) (first cnt : Nat) (dev : Device), mc.WF →
      16 < first + cnt → 0 < cnt →
      (∀ b, b < 16 → first ≤ b → mc.blocks[b]? = some none) →
      mc.map_device first cnt dev = .panicked) ∧
    (∀ (mc : MemoryController) (first cnt : Nat) (dev : Device), mc.WF →
      first + cnt ≤ 16 → (mc.map_device first cnt dev).isPanic = false) ∧
    (∀ (mc : MemoryController) (first cnt : Nat) (dev : Device), mc.WF →
      first + cnt ≤ 16 →
      (∃ b, first ≤ b ∧ b < first + cnt ∧ mc.blocks[b]? ≠ some none) →
      mc.map_device first cnt dev = .failed "Block is already mapped to another device") ∧
    (∀ (mc : MemoryController) (first cnt : Nat) (dev : Device),
      (∀ b, b < first + cnt → first ≤ b → mc.blocks[b]? = some none) →
      (mc.map_device first cnt dev).index? = some mc.mappings.length ∧
      ((mc.map_device first cnt dev).controller?).map (fun m => m.mappings) =
        some (mc.mappings ++ [{ offset := first * MAP_BLOCK_SIZE, device := dev }])) ∧
    (∀ (mc : MemoryController) (first cnt : Nat) (dev : Device), mc.WF →
      (mc.map_device first cnt dev = .panicked ↔
        (16 < first + cnt ∧ 0 < cnt ∧
          ∀ b, b < 16 → first ≤ b → mc.blocks[b]? = some none))) ∧
    (∀ (mc : MemoryController) (first cnt : Nat) (dev : Device), mc.WF →
      (∃ b, first ≤ b ∧ b < first + cnt ∧ b < 16 ∧ mc.blocks[b]? ≠ some none) →
      mc.map_device first cnt dev = .failed "Block is already mapped to another device") := by
  refine ⟨?_, ?_, ?_, ?_, ?_, ?_⟩
  · intro mc first cnt dev hwf hsum hpos hfree
    unfold MemoryController.map_device
    rw [blocksFreeScan_panics mc.blocks hwf.1 cnt first hsum hpos hfree]
  · intro mc first cnt dev hwf hsum
    unfold MemoryController.map_device
    obtain ⟨r, hr⟩ := blocksFreeScan_no_panic mc.blocks hwf.1 cnt first hsum
    rw [hr]
    cases r <;> rfl
  · intro mc first cnt dev hwf hsum hocc
    unfold MemoryController.map_device
    obtain ⟨c, hc⟩ := blocksFreeScan_finds_occupied mc.blocks hwf.1 cnt first hsum hocc
    rw [hc]
  · intro mc first cnt dev hfree
    unfold MemoryController.map_device
    rw [blocksFreeScan_all_free mc.blocks cnt first hfree]
    constructor
    · simp [MapOutcome.index?]
    · simp [MapOutcome.controller?]
  · intro mc first cnt dev hwf
    constructor
    · intro hp
      rcases hscan : blocksFreeScan mc.blocks first cnt with _ | (_ | c)
      · exact (blocksFreeScan_none_iff mc.blocks hwf.1 cnt first).mp hscan
      · unfold MemoryController.map_device at hp
        rw [hscan] at hp
        cases hp
      · unfold MemoryController.map_device at hp
        rw [hscan] at hp
        cases hp
    · rintro ⟨h1, h2, h3⟩
      unfold MemoryController.map_device
      rw [blocksFreeScan_panics mc.blocks hwf.1 cnt first h1 h2 h3]
  · intro mc first cnt dev hwf hocc
    unfold MemoryController.map_device
    obtain ⟨c, hc⟩ := blocksFreeScan_occupied_stops mc.blocks hwf.1 cnt first hocc
    rw [hc]

/-- Witness for the amended C10: every branch at concrete inputs,
including the panic iff and an overflowing range stopped by an occupied
block (which fails instead of panicking). -/
theorem map_device_contract_witness :
    MemoryController.new.map_device 15 2 exRam4K = .panicked ∧
    (MemoryController.new.map_device 0 16 exRam4K).isPanic = false ∧
    exMcSplit.map_device 0 1 exRam4K = .failed "Block is already mapped to another device" ∧
    ((MemoryController.new.map_device 2 3 exRam4K).index? = some MemoryController.new.mappings.length ∧
      ((MemoryController.new.map_device 2 3 exRam4K).controller?).map (fun m => m.mappings) =
        some (MemoryController.new.mappings ++
          [{ offset := 2 * MAP_BLOCK_SIZE, device := exRam4K }])) ∧
    (MemoryController.new.map_device 16 1 exRam4K = .panicked ↔
      (16 < 16 + 1 ∧ 0 < 1 ∧
        ∀ b, b < 16 → 16 ≤ b → MemoryController.new.blocks[b]? = some none)) ∧
    exMcSplit.map_device 0 17 exRam4K = .failed "Block is already mapped to another device" :=
  ⟨map_device_contract.1 MemoryController.new 15 2 exRam4K new_WF (by decide) (by decide)
      (by decide),
    map_device_contract.2.1 MemoryController.new 0 16 exRam4K new_WF (by decide),
    map_device_contract.2.2.1 exMcSplit 0 1 exRam4K exMcSplit_WF (by decide)
      ⟨0, by decide, by decide, by decide⟩,
    map_device_contract.2.2.2.1 MemoryController.new 2 3 exRam4K (by decide),
    map_device_contract.2.2.2.2.1 MemoryController.new 16 1 exRam4K new_WF,
    map_device_contract.2.2.2.2.2 exMcSplit 0 17 exRam4K exMcSplit_WF
      ⟨0, by decide, by decide, by decide, by decide⟩⟩

end VM

namespace VM

/-- A device-level 16-bit read is the little-endian combination of the
two byte reads. -/
lemma device_read16_as_two_read8 (d : Device) (t : Nat) :
    d.read_16 t = d.read_8 t ||| (d.read_8 (t + 1)) <<< 8 := by
  unfold Device.read_16 Device.read_8
  by_cases h1 : t < d.size <;> by_cases h2 : t + 1 < d.size
  · rw [if_pos h1, if_pos h2, if_neg (show ¬ t ≥ d.size by omega),
      if_neg (show ¬ t + 1 ≥ d.size by omega)]
  · rw [if_pos h1, if_neg h2, if_neg (show ¬ t ≥ d.size by omega),
      if_pos (show t + 1 ≥ d.size by omega)]
    simp
  · omega
  · rw [if_neg h1, if_neg h2, if_pos (show t ≥ d.size by omega),
      if_pos (show t + 1 ≥ d.size by omega)]
    simp

/-- A device-level 16-bit write equals the low-byte write followed by the
high-byte write. -/
lemma device_write16_as_two_write8 (d : Device) (t v : Nat) :
    d.write_16 t v = (d.write_8 t (v % 0x100)).write_8 (t + 1) (v / 0x100) := by
  rcases d with ⟨k, mem, size⟩
  cases k
  case rom => rfl
  case ram =>
    by_cases h1 : t < size
    · have e1 : Device.write_8 ⟨.ram, mem, size⟩ t (v % 0x100) =
          ⟨.ram, fun j => if j = t then v % 0x100 % 0x100 else mem j, size⟩ := by
        unfold Device.write_8
        dsimp only
        rw [if_neg (by omega)]
      by_cases h2 : t + 1 < size
      · have e2 : Device.write_8
            (⟨.ram, fun j => if j = t then v % 0x100 % 0x100 else mem j, size⟩ : Device)
            (t + 1) (v / 0x100) =
            ⟨.ram, fun j => if j = t + 1 then v / 0x100 % 0x100
              else if j = t then v % 0x100 % 0x100 else mem j, size⟩ := by
          unfold Device.write_8
          dsimp only
          rw [if_neg (by omega)]
        have e3 : Device.write_16 ⟨.ram, mem, size⟩ t v =
            ⟨.ram, fun j => if j = t + 1 then v / 0x100 % 0x100
              else if j = t then v % 0x100 else mem j, size⟩ := by
          unfold Device.write_16
          dsimp only
          rw [if_pos h1]
          dsimp only
          rw [if_pos h2]
        rw [e1, e2, e3]
        simp only [Device.mk.injEq]
        refine ⟨trivial, ?_, trivial⟩
        funext j
        by_cases hj1 : j = t + 1
        · rw [if_pos hj1, if_pos hj1]
        · rw [if_neg hj1, if_neg hj1]
          by_cases hj2 : j = t
          · rw [if_pos hj2, if_pos hj2]
            omega
          · rw [if_neg hj2, if_neg hj2]
      · have e2 : Device.write_8
            (⟨.ram, fun j => if j = t then v % 0x100 % 0x100 else mem j, size⟩ : Device)
            (t + 1) (v / 0x100) =
            ⟨.ram, fun j => if j = t then v % 0x100 % 0x100 else mem j, size⟩ := by
          unfold Device.write_8
          dsimp only
          rw [if_pos (by omega)]
        have e3 : Device.write_16 ⟨.ram, mem, size⟩ t v =
            ⟨.ram, fun j => if j = t then v % 0x100 else mem j, size⟩ := by
          unfold Device.write_16
          dsimp only
          rw [if_pos h1]
          dsimp only
          rw [if_neg (by omega)]
        rw [e1, e2, e3]
        simp only [Device.mk.injEq]
        refine ⟨trivial, ?_, trivial⟩
        funext j
        by_cases hj2 : j = t
        · rw [if_pos hj2, if_pos hj2]
          omega
        · rw [if_neg hj2, if_neg hj2]
    · have e1 : Device.write_8 ⟨.ram, mem, size⟩ t (v % 0x100) =
          ⟨.ram, mem, size⟩ := by
        unfold Device.write_8
        dsimp only
        rw [if_pos (by omega)]
      have e2 : Device.write_8 (⟨.ram, mem, size⟩ : Device) (t + 1) (v / 0x100) =
          ⟨.ram, mem, size⟩ := by
        unfold Device.write_8
        dsimp only
        rw [if_pos (by omega)]
      have e3 : Device.write_16 ⟨.ram, mem, size⟩ t v = ⟨.ram, mem, size⟩ := by
        unfold Device.write_16
        dsimp only
        rw [if_neg h1]
        dsimp only
        rw [if_neg (by omega)]
      rw [e1, e2, e3]

/-- `exRam4K` holds bytes. -/
lemma exRam4K_WF : exRam4K.WF := by
  intro i hi
  simp [exRam4K]

/-- `exMcOne` is well-formed. -/
lemma exMcOne_WF : exMcOne.WF := by
  refine ⟨by decide, ?_⟩
  intro b mi hb
  match b with
  | 0 =>
    simp only [exMcOne] at hb ⊢
    simp at hb
    subst hb
    exact ⟨_, rfl, by decide, exRam4K_WF⟩
  | (n + 1) =>
    simp only [exMcOne, List.cons_append, List.getElem?_cons_succ,
      List.nil_append, List.getElem?_replicate] at hb
    split at hb <;> simp_all

/-- C4 counterexample: at `a = 0x0FFF` the 16-bit read is dispatched
whole to the block-0 device, whose high byte falls past its end and reads
`0x00`; the two 8-bit reads fetch `0xAA` from block 0 and `0xBB` from
block 1, a different result. -/
theorem read_16_across_mappings_counterexample :
    exMcSplit.read_16 0x0FFF = some 0x00AA ∧
    exMcSplit.read_8 0x0FFF = some 0xAA ∧
    exMcSplit.read_8 0x1000 = some 0xBB ∧
    (0xAA ||| 0xBB <<< 8 : Nat) = 0xBBAA ∧
    (some 0x00AA : Option Nat) ≠ some 0xBBAA := by
  refine ⟨by rfl, by rfl, by rfl, by decide, by simp⟩

/-- C4 (amended): a 16-bit access agrees with the two little-endian
8-bit accesses whenever both bytes' blocks carry the same block-table
entry (one mapping serving both bytes, or both unmapped); an access
spanning two differently-mapped blocks is dispatched whole to the first
block's device instead. -/
theorem read_write_16_as_two_8 :
    (∀ (mc : MemoryController) (a : Nat), mc.WF → a + 1 < 0x10000 →
      mc.blocks[a / MAP_BLOCK_SIZE]? = mc.blocks[(a + 1) / MAP_BLOCK_SIZE]? →
      mc.read_16 a =
        (mc.read_8 a).bind (fun lo => (mc.read_8 (a + 1)).map (fun hi => lo ||| hi <<< 8))) ∧
    (∀ (mc : MemoryController) (a v : Nat), mc.WF → a + 1 < 0x10000 →
      mc.blocks[a / MAP_BLOCK_SIZE]? = mc.blocks[(a + 1) / MAP_BLOCK_SIZE]? →
      mc.write_16 a v =
        (mc.write_8 a (v % 0x100)).bind (fun m1 => m1.write_8 (a + 1) (v / 0x100))) := by
  constructor
  · intro mc a hwf ha hsame
    obtain ⟨s, hs⟩ := blocks_entry_exists mc hwf a (by omega)
    unfold MemoryController.read_16 MemoryController.read_8
    rw [hs, ← hsame, hs]
    match s with
    | none => rfl
    | some mi =>
      obtain ⟨m, hm, hoff, _⟩ := hwf.2 (a / MAP_BLOCK_SIZE) mi hs
      have hle : m.offset ≤ a := le_trans hoff (Nat.div_mul_le_self a MAP_BLOCK_SIZE)
      simp only [hm]
      rw [if_neg (by omega), if_neg (by omega), if_neg (show ¬ a + 1 < m.offset by omega)]
      show some (m.device.read_16 (a - m.offset)) =
        some (m.device.read_8 (a - m.offset) ||| m.device.read_8 (a + 1 - m.offset) <<< 8)
      rw [show a + 1 - m.offset = a - m.offset + 1 by omega]
      rw [device_read16_as_two_read8]
  · intro mc a v hwf ha hsame
    obtain ⟨s, hs⟩ := blocks_entry_exists mc hwf a (by omega)
    have hs1 : mc.blocks[(a + 1) / MAP_BLOCK_SIZE]? = some s := by rw [← hsame, hs]
    cases s with
    | none =>
      have l1 : mc.write_16 a v = some mc := by
        unfold MemoryController.write_16
        rw [hs]
      have l2 : mc.write_8 a (v % 0x100) = some mc := by
        unfold MemoryController.write_8
        rw [hs]
      have l3 : mc.write_8 (a + 1) (v / 0x100) = some mc := by
        unfold MemoryController.write_8
        rw [hs1]
      rw [l1, l2]
      show some mc = mc.write_8 (a + 1) (v / 0x100)
      rw [l3]
    | some mi =>
      obtain ⟨m, hm, hoff, _⟩ := hwf.2 (a / MAP_BLOCK_SIZE) mi hs
      have hle : m.offset ≤ a := le_trans hoff (Nat.div_mul_le_self a MAP_BLOCK_SIZE)
      have hmi : mi < mc.mappings.length := (List.getElem?_eq_some.mp hm).1
      have l1 := write_16_mapped mc a v mi m hs hm hle
      have l2 := write_8_mapped mc a (v % 0x100) mi m hs hm hle
      have hm1 : (mc.mappings.set mi ({ offset := m.offset, device := m.device.write_8 (a - m.offset) (v % 0x100) } : Mapping))[mi]? = some { offset := m.offset, device := m.device.write_8 (a - m.offset) (v % 0x100) } := by
        rw [List.getElem?_set_self]
        omega
      have l3 := write_8_mapped
        { mc with mappings := mc.mappings.set mi { offset := m.offset, device := m.device.write_8 (a - m.offset) (v % 0x100) } }
        (a + 1) (v / 0x100) mi
        { offset := m.offset, device := m.device.write_8 (a - m.offset) (v % 0x100) }
        hs1 hm1 (by show m.offset ≤ a + 1; omega)
      rw [l1, l2]
      show _ = MemoryController.write_8 { mc with mappings := mc.mappings.set mi { offset := m.offset, device := m.device.write_8 (a - m.offset) (v % 0x100) } } (a + 1) (v / 0x100)
      rw [l3]
      simp only [List.set_set]
      rw [show a + 1 - m.offset = a - m.offset + 1 by omega]
      rw [device_write16_as_two_write8]

end VM

namespace VM

/-- Witness for the amended C4 at `exMcOne`, `a = 0x10`, `v = 0x1234`. -/
theorem read_write_16_as_two_8_witness :
    (exMcOne.read_16 0x10 =
      (exMcOne.read_8 0x10).bind
        (fun lo => (exMcOne.read_8 (0x10 + 1)).map (fun hi => lo ||| hi <<< 8))) ∧
    (exMcOne.write_16 0x10 0x1234 =
      (exMcOne.write_8 0x10 (0x1234 % 0x100)).bind
        (fun m1 => m1.write_8 (0x10 + 1) (0x1234 / 0x100))) :=
  ⟨read_write_16_as_two_8.1 exMcOne 0x10 exMcOne_WF (by decide) (by decide),
    read_write_16_as_two_8.2 exMcOne 0x10 0x1234 exMcOne_WF (by decide) (by decide)⟩

end VM

namespace VM

/-- C1: byte-mode ADC/SBC with a register destination and `LH = 1` do
NOT read the high half as the current-destination operand: the source
passes `self.reg as u8` — the LOW byte — to the ALU and then writes the
result to the high half.  At `A = 0xAB00`, `ADC.b ah, #0x00` therefore
yields `A = 0x0000` (low byte 0x00 added, result stored high) instead of
the claim's `A = 0xAB00`, and `SBC.b ah, #0x00` with C = 0 yields
`A = 0xFF00` instead of `0xAA00`. -/
theorem adc8_sbc8_high_destination_reads_low_half :
    (exCpuA.execute_adc8 true Location.A Location.Immediate).map (fun c => c.a) =
      some 0x0000 ∧
    (some 0x0000 : Option Nat) ≠ some 0xAB00 ∧
    (exCpuA.execute_sbc8 true Location.A Location.Immediate).map (fun c => c.a) =
      some 0xFF00 ∧
    (some 0xFF00 : Option Nat) ≠ some 0xAA00 := by
  refine ⟨by decide, by simp, by decide, by simp⟩

/-- RAM/ROM reset preserves the byte invariant. -/
lemma device_reset_WF (d : Device) (h : d.WF) : d.reset.WF := by
  rcases d with ⟨k, mem, size⟩
  cases k
  case ram =>
    intro i hi
    show (0x00 : Nat) < 0x100
    omega
  case rom => exact h

/-- Controller reset preserves well-formedness. -/
lemma mc_reset_WF (mc : MemoryController) (h : mc.WF) : mc.reset.WF := by
  constructor
  · exact h.1
  · intro b mi hb
    obtain ⟨m, hm, hoff, hwfd⟩ := h.2 b mi hb
    refine ⟨{ m with device := m.device.reset }, ?_, hoff, device_reset_WF m.device hwfd⟩
    have hmap : mc.reset.mappings =
        mc.mappings.map (fun x => { x with device := x.device.reset }) := rfl
    rw [hmap, List.getElem?_map, hm]
    rfl

/-- C2: after `reset()` the CPU is running with the wait latch clear,
every mapped device has been reset exactly once (the mapping list is the
device-wise reset of the old one; ROM's reset is the identity), the block
table is untouched, PC holds the little-endian word readable at `0xFFFE`
in the post-reset memory, and SP, X, Y, A, B, C, D and the status byte
are zero. -/
theorem cpu_reset_contract :
    ∀ cpu : CPU, cpu.memory_controller.WF →
      (cpu.reset).map (fun c => c.enable) = some true ∧
      (cpu.reset).map (fun c => c.waiting_for_interrupt) = some false ∧
      (cpu.reset).map (fun c => c.memory_controller.mappings) =
        some (cpu.memory_controller.mappings.map
          (fun m => { m with device := m.device.reset })) ∧
      (cpu.reset).map (fun c => c.memory_controller.blocks) =
        some cpu.memory_controller.blocks ∧
      (cpu.reset).bind (fun c => c.memory_controller.read_16 RESET_VECTOR) =
        (cpu.reset).map (fun c => c.program_counter) ∧
      (cpu.reset).map
          (fun c => (c.stack_pointer, c.index_x, c.index_y, c.a, c.b, c.c, c.d, c.status)) =
        some (0, 0, 0, 0, 0, 0, 0, 0) := by
  intro cpu hwf
  obtain ⟨v, hv, _⟩ :=
    read_16_total cpu.memory_controller.reset (mc_reset_WF cpu.memory_controller hwf)
      RESET_VECTOR (by decide)
  have hr : cpu.reset = some
      { enable := true
        waiting_for_interrupt := false
        memory_controller := cpu.memory_controller.reset
        program_counter := v
        stack_pointer := 0x0000
        index_x := 0x0000
        index_y := 0x0000
        status := 0x00
        a := 0x0000
        b := 0x0000
        c := 0x0000
        d := 0x0000 } := by
    unfold CPU.reset
    dsimp only
    rw [hv]
    rfl
  rw [hr]
  refine ⟨rfl, rfl, rfl, rfl, ?_, rfl⟩
  show cpu.memory_controller.reset.read_16 RESET_VECTOR = some v
  exact hv

/-- Witness for C2 at the freshly constructed CPU. -/
theorem cpu_reset_contract_witness :
    (CPU.new.reset).map (fun c => c.enable) = some true ∧
    (CPU.new.reset).map (fun c => c.waiting_for_interrupt) = some false ∧
    (CPU.new.reset).map (fun c => c.memory_controller.mappings) =
      some (CPU.new.memory_controller.mappings.map
        (fun m => { m with device := m.device.reset })) ∧
    (CPU.new.reset).map (fun c => c.memory_controller.blocks) =
      some CPU.new.memory_controller.blocks ∧
    (CPU.new.reset).bind (fun c => c.memory_controller.read_16 RESET_VECTOR) =
      (CPU.new.reset).map (fun c => c.program_counter) ∧
    (CPU.new.reset).map
        (fun c => (c.stack_pointer, c.index_x, c.index_y, c.a, c.b, c.c, c.d, c.status)) =
      some (0, 0, 0, 0, 0, 0, 0, 0) :=
  cpu_reset_contract CPU.new new_WF

end VM

namespace VM

/-! ## Well-formedness preservation and totality of the fetch helpers -/

/-- Setting S preserves CPU well-formedness. -/
lemma set_sign_WF (cpu : CPU) (b : Bool) (h : cpu.WF) : (cpu.set_sign_flag b).WF := by
  cases b <;> exact h

/-- Setting Z preserves CPU well-formedness. -/
lemma set_zero_WF (cpu : CPU) (b : Bool) (h : cpu.WF) : (cpu.set_zero_flag b).WF := by
  cases b <;> exact h

/-- Setting P preserves CPU well-formedness. -/
lemma set_parity_WF (cpu : CPU) (b : Bool) (h : cpu.WF) : (cpu.set_parity_flag b).WF := by
  cases b <;> exact h

/-- Setting C preserves CPU well-formedness. -/
lemma set_carry_WF (cpu : CPU) (b : Bool) (h : cpu.WF) : (cpu.set_carry_flag b).WF := by
  cases b <;> exact h

/-- Setting O preserves CPU well-formedness. -/
lemma set_overflow_WF (cpu : CPU) (b : Bool) (h : cpu.WF) : (cpu.set_overflow_flag b).WF := by
  cases b <;> exact h

/-- `set_flags_from_value16` preserves CPU well-formedness. -/
lemma set_flags16_WF (cpu : CPU) (v : Nat) (h : cpu.WF) : (cpu.set_flags_from_value16 v).WF :=
  set_parity_WF _ _ (set_zero_WF _ _ (set_sign_WF _ _ h))

/-- `set_flags_from_value8` preserves CPU well-formedness. -/
lemma set_flags8_WF (cpu : CPU) (v : Nat) (h : cpu.WF) : (cpu.set_flags_from_value8 v).WF :=
  set_parity_WF _ _ (set_zero_WF _ _ (set_sign_WF _ _ h))

/-- The 16-bit ALU helpers preserve CPU well-formedness. -/
lemma add16_WF (cpu : CPU) (l r : Nat) (c : Bool) (h : cpu.WF) :
    (cpu.add_with_carry16 l r c).2.WF :=
  set_overflow_WF _ _ (set_carry_WF _ _ (set_flags16_WF _ _ h))

/-- `add_with_carry8` preserves CPU well-formedness. -/
lemma add8_WF (cpu : CPU) (l r : Nat) (c : Bool) (h : cpu.WF) :
    (cpu.add_with_carry8 l r c).2.WF :=
  set_overflow_WF _ _ (set_carry_WF _ _ (set_flags8_WF _ _ h))

/-- `subtract_with_carry16` preserves CPU well-formedness. -/
lemma sub16_WF (cpu : CPU) (l r : Nat) (c : Bool) (h : cpu.WF) :
    (cpu.subtract_with_carry16 l r c).2.WF :=
  set_overflow_WF _ _ (set_carry_WF _ _ (set_flags16_WF _ _ h))

/-- `subtract_with_carry8` preserves CPU well-formedness. -/
lemma sub8_WF (cpu : CPU) (l r : Nat) (c : Bool) (h : cpu.WF) :
    (cpu.subtract_with_carry8 l r c).2.WF :=
  set_overflow_WF _ _ (set_carry_WF _ _ (set_flags8_WF _ _ h))

/-- `fetch16` succeeds with a 16-bit value and a well-formed CPU. -/
lemma fetch16_spec (cpu : CPU) (h : cpu.WF) :
    ∃ v cpu', cpu.fetch16 = some (v, cpu') ∧ v < 0x10000 ∧ cpu'.WF := by
  obtain ⟨v, hv, hlt⟩ := read_16_total cpu.memory_controller h.1 cpu.program_counter h.2.1
  refine ⟨v, { cpu with program_counter := (cpu.program_counter + 2) % 0x10000 }, ?_, hlt, ?_⟩
  · unfold CPU.fetch16
    rw [hv]
    rfl
  · exact ⟨h.1, Nat.mod_lt _ (by omega), h.2.2.1, h.2.2.2⟩

/-- `fetch8` succeeds with a well-formed CPU. -/
lemma fetch8_spec (cpu : CPU) (h : cpu.WF) :
    ∃ v cpu', cpu.fetch8 = some (v, cpu') ∧ cpu'.WF := by
  obtain ⟨v, hv, _⟩ := read_8_total cpu.memory_controller h.1 cpu.program_counter h.2.1
  refine ⟨v, { cpu with program_counter := (cpu.program_counter + 1) % 0x10000 }, ?_, ?_⟩
  · unfold CPU.fetch8
    rw [hv]
    rfl
  · exact ⟨h.1, Nat.mod_lt _ (by omega), h.2.2.1, h.2.2.2⟩

/-- `fetch_address` resolves to a 16-bit address on a well-formed CPU. -/
lemma fetch_address_spec (cpu : CPU) (h : cpu.WF) :
    ∃ a cpu', cpu.fetch_address = some (a, cpu') ∧ a < 0x10000 ∧ cpu'.WF :=
  fetch16_spec cpu h

/-- `fetch_indexed_address` resolves to a 16-bit address. -/
lemma fetch_indexed_address_spec (cpu : CPU) (h : cpu.WF) :
    ∃ a cpu', cpu.fetch_indexed_address = some (a, cpu') ∧ a < 0x10000 ∧ cpu'.WF := by
  obtain ⟨v, cpu', hf, _, hwf⟩ := fetch16_spec cpu h
  refine ⟨(v + cpu'.index_x) % 0x10000, cpu', ?_, Nat.mod_lt _ (by omega), hwf⟩
  unfold CPU.fetch_indexed_address
  rw [hf]
  rfl

/-- `fetch_indirect_address` resolves to a 16-bit address. -/
lemma fetch_indirect_address_spec (cpu : CPU) (h : cpu.WF) :
    ∃ a cpu', cpu.fetch_indirect_address = some (a, cpu') ∧ a < 0x10000 ∧ cpu'.WF := by
  obtain ⟨v, cpu', hf, hlt, hwf⟩ := fetch16_spec cpu h
  obtain ⟨w, hw, hwlt⟩ := read_16_total cpu'.memory_controller hwf.1 v hlt
  refine ⟨w, cpu', ?_, hwlt, hwf⟩
  unfold CPU.fetch_indirect_address
  rw [hf]
  show cpu'.memory_controller.read_16 v >>= _ = _
  rw [hw]
  rfl

/-- `fetch_indirect_indexed_address` resolves to a 16-bit address. -/
lemma fetch_indirect_indexed_address_spec (cpu : CPU) (h : cpu.WF) :
    ∃ a cpu', cpu.fetch_indirect_indexed_address = some (a, cpu') ∧ a < 0x10000 ∧ cpu'.WF := by
  obtain ⟨v, cpu', hf, hlt, hwf⟩ := fetch16_spec cpu h
  obtain ⟨w, hw, _⟩ := read_16_total cpu'.memory_controller hwf.1 v hlt
  refine ⟨(w + cpu'.index_x) % 0x10000, cpu', ?_, Nat.mod_lt _ (by omega), hwf⟩
  unfold CPU.fetch_indirect_indexed_address
  rw [hf]
  show cpu'.memory_controller.read_16 v >>= _ = _
  rw [hw]
  rfl

/-- `fetch_indexed_indirect_address` resolves to a 16-bit address. -/
lemma fetch_indexed_indirect_address_spec (cpu : CPU) (h : cpu.WF) :
    ∃ a cpu', cpu.fetch_indexed_indirect_address = some (a, cpu') ∧ a < 0x10000 ∧ cpu'.WF := by
  obtain ⟨v, cpu', hf, _, hwf⟩ := fetch16_spec cpu h
  obtain ⟨w, hw, hwlt⟩ :=
    read_16_total cpu'.memory_controller hwf.1 ((v + cpu'.index_x) % 0x10000)
      (Nat.mod_lt _ (by omega))
  refine ⟨w, cpu', ?_, hwlt, hwf⟩
  unfold CPU.fetch_indexed_indirect_address
  rw [hf]
  show cpu'.memory_controller.read_16 ((v + cpu'.index_x) % 0x10000) >>= _ = _
  rw [hw]
  rfl

/-- `get_pointer_indexed_address` is a 16-bit address. -/
lemma get_pointer_indexed_address_lt (cpu : CPU) :
    cpu.get_pointer_indexed_address < 0x10000 :=
  Nat.mod_lt _ (by omega)

/-- `get_pointer_indirect_address` resolves to a 16-bit address. -/
lemma get_pointer_indirect_address_spec (cpu : CPU) (h : cpu.WF) :
    ∃ a, cpu.get_pointer_indirect_address = some a ∧ a < 0x10000 := by
  obtain ⟨w, hw, hwlt⟩ := read_16_total cpu.memory_controller h.1 cpu.index_y h.2.2.2
  exact ⟨w, hw, hwlt⟩

/-- `get_pointer_indirect_indexed_address` resolves to a 16-bit address. -/
lemma get_pointer_indirect_indexed_address_spec (cpu : CPU) (h : cpu.WF) :
    ∃ a, cpu.get_pointer_indirect_indexed_address = some a ∧ a < 0x10000 := by
  obtain ⟨w, hw, _⟩ := read_16_total cpu.memory_controller h.1 cpu.index_y h.2.2.2
  refine ⟨(w + cpu.index_x) % 0x10000, ?_, Nat.mod_lt _ (by omega)⟩
  unfold CPU.get_pointer_indirect_indexed_address
  rw [hw]
  rfl

/-- `get_pointer_indexed_indirect_address` resolves to a 16-bit address. -/
lemma get_pointer_indexed_indirect_address_spec (cpu : CPU) (h : cpu.WF) :
    ∃ a, cpu.get_pointer_indexed_indirect_address = some a ∧ a < 0x10000 := by
  obtain ⟨w, hw, hwlt⟩ :=
    read_16_total cpu.memory_controller h.1 ((cpu.index_y + cpu.index_x) % 0x10000)
      (Nat.mod_lt _ (by omega))
  exact ⟨w, hw, hwlt⟩

end VM

namespace VM

/-- 16-bit source-operand resolution succeeds on a well-formed CPU. -/
lemma source_value16_spec (cpu : CPU) (h : cpu.WF) (source : Location) :
    ∃ v cpu', cpu.source_value16 source = some (v, cpu') ∧ cpu'.WF := by
  cases source with
  | Immediate =>
    obtain ⟨v, c', hf, _, hwf⟩ := fetch16_spec cpu h
    exact ⟨v, c', hf, hwf⟩
  | A => exact ⟨cpu.a, cpu, rfl, h⟩
  | B => exact ⟨cpu.b, cpu, rfl, h⟩
  | C => exact ⟨cpu.c, cpu, rfl, h⟩
  | D => exact ⟨cpu.d, cpu, rfl, h⟩
  | Idx => exact ⟨cpu.index_x, cpu, rfl, h⟩
  | Idy => exact ⟨cpu.index_y, cpu, rfl, h⟩
  | Address =>
    obtain ⟨a, c', hf, halt, hwf⟩ := fetch_address_spec cpu h
    obtain ⟨w, hw, _⟩ := read_16_total c'.memory_controller hwf.1 a halt
    refine ⟨w, c', ?_, hwf⟩
    show (cpu.fetch_address >>= fun p => _) = _
    rw [hf]
    show c'.memory_controller.read_16 a >>= _ = _
    rw [hw]
    rfl
  | IndexedAddress =>
    obtain ⟨a, c', hf, halt, hwf⟩ := fetch_indexed_address_spec cpu h
    obtain ⟨w, hw, _⟩ := read_16_total c'.memory_controller hwf.1 a halt
    refine ⟨w, c', ?_, hwf⟩
    show (cpu.fetch_indexed_address >>= fun p => _) = _
    rw [hf]
    show c'.memory_controller.read_16 a >>= _ = _
    rw [hw]
    rfl
  | IndirectAddress =>
    obtain ⟨a, c', hf, halt, hwf⟩ := fetch_indirect_address_spec cpu h
    obtain ⟨w, hw, _⟩ := read_16_total c'.memory_controller hwf.1 a halt
    refine ⟨w, c', ?_, hwf⟩
    show (cpu.fetch_indirect_address >>= fun p => _) = _
    rw [hf]
    show c'.memory_controller.read_16 a >>= _ = _
    rw [hw]
    rfl
  | IndirectIndexedAddress =>
    obtain ⟨a, c', hf, halt, hwf⟩ := fetch_indirect_indexed_address_spec cpu h
    obtain ⟨w, hw, _⟩ := read_16_total c'.memory_controller hwf.1 a halt
    refine ⟨w, c', ?_, hwf⟩
    show (cpu.fetch_indirect_indexed_address >>= fun p => _) = _
    rw [hf]
    show c'.memory_controller.read_16 a >>= _ = _
    rw [hw]
    rfl
  | IndexedIndirectAddress =>
    obtain ⟨a, c', hf, halt, hwf⟩ := fetch_indexed_indirect_address_spec cpu h
    obtain ⟨w, hw, _⟩ := read_16_total c'.memory_controller hwf.1 a halt
    refine ⟨w, c', ?_, hwf⟩
    show (cpu.fetch_indexed_indirect_address >>= fun p => _) = _
    rw [hf]
    show c'.memory_controller.read_16 a >>= _ = _
    rw [hw]
    rfl
  | IndexedPointer =>
    obtain ⟨w, hw, _⟩ :=
      read_16_total cpu.memory_controller h.1 cpu.get_pointer_indexed_address
        (get_pointer_indexed_address_lt cpu)
    refine ⟨w, cpu, ?_, h⟩
    show cpu.memory_controller.read_16 cpu.get_pointer_indexed_address >>= _ = _
    rw [hw]
    rfl
  | IndirectPointer =>
    obtain ⟨a, hg, halt⟩ := get_pointer_indirect_address_spec cpu h
    obtain ⟨w, hw, _⟩ := read_16_total cpu.memory_controller h.1 a halt
    refine ⟨w, cpu, ?_, h⟩
    show (cpu.get_pointer_indirect_address >>= fun a => _) = _
    rw [hg]
    show cpu.memory_controller.read_16 a >>= _ = _
    rw [hw]
    rfl
  | IndirectIndexedPointer =>
    obtain ⟨a, hg, halt⟩ := get_pointer_indirect_indexed_address_spec cpu h
    obtain ⟨w, hw, _⟩ := read_16_total cpu.memory_controller h.1 a halt
    refine ⟨w, cpu, ?_, h⟩
    show (cpu.get_pointer_indirect_indexed_address >>= fun a => _) = _
    rw [hg]
    show cpu.memory_controller.read_16 a >>= _ = _
    rw [hw]
    rfl
  | IndexedIndirectPointer =>
    obtain ⟨a, hg, halt⟩ := get_pointer_indexed_indirect_address_spec cpu h
    obtain ⟨w, hw, _⟩ := read_16_total cpu.memory_controller h.1 a halt
    refine ⟨w, cpu, ?_, h⟩
    show (cpu.get_pointer_indexed_indirect_address >>= fun a => _) = _
    rw [hg]
    show cpu.memory_controller.read_16 a >>= _ = _
    rw [hw]
    rfl

end VM

namespace VM

/-- 8-bit source-operand resolution succeeds on a well-formed CPU. -/
lemma source_value8_spec (cpu : CPU) (h : cpu.WF) (lo_hi : Bool) (source : Location) :
    ∃ v cpu', cpu.source_value8 lo_hi source = some (v, cpu') ∧ cpu'.WF := by
  cases source with
  | Immediate =>
    obtain ⟨v, c', hf, hwf⟩ := fetch8_spec cpu h
    exact ⟨v, c', hf, hwf⟩
  | A => exact ⟨_, cpu, rfl, h⟩
  | B => exact ⟨_, cpu, rfl, h⟩
  | C => exact ⟨_, cpu, rfl, h⟩
  | D => exact ⟨_, cpu, rfl, h⟩
  | Idx => exact ⟨_, cpu, rfl, h⟩
  | Idy => exact ⟨_, cpu, rfl, h⟩
  | Address =>
    obtain ⟨a, c', hf, halt, hwf⟩ := fetch_address_spec cpu h
    obtain ⟨w, hw, _⟩ := read_8_total c'.memory_controller hwf.1 a halt
    refine ⟨w, c', ?_, hwf⟩
    show (cpu.fetch_address >>= fun p => _) = _
    rw [hf]
    show c'.memory_controller.read_8 a >>= _ = _
    rw [hw]
    rfl
  | IndexedAddress =>
    obtain ⟨a, c', hf, halt, hwf⟩ := fetch_indexed_address_spec cpu h
    obtain ⟨w, hw, _⟩ := read_8_total c'.memory_controller hwf.1 a halt
    refine ⟨w, c', ?_, hwf⟩
    show (cpu.fetch_indexed_address >>= fun p => _) = _
    rw [hf]
    show c'.memory_controller.read_8 a >>= _ = _
    rw [hw]
    rfl
  | IndirectAddress =>
    obtain ⟨a, c', hf, halt, hwf⟩ := fetch_indirect_address_spec cpu h
    obtain ⟨w, hw, _⟩ := read_8_total c'.memory_controller hwf.1 a halt
    refine ⟨w, c', ?_, hwf⟩
    show (cpu.fetch_indirect_address >>= fun p => _) = _
    rw [hf]
    show c'.memory_controller.read_8 a >>= _ = _
    rw [hw]
    rfl
  | IndirectIndexedAddress =>
    obtain ⟨a, c', hf, halt, hwf⟩ := fetch_indirect_indexed_address_spec cpu h
    obtain ⟨w, hw, _⟩ := read_8_total c'.memory_controller hwf.1 a halt
    refine ⟨w, c', ?_, hwf⟩
    show (cpu.fetch_indirect_indexed_address >>= fun p => _) = _
    rw [hf]
    show c'.memory_controller.read_8 a >>= _ = _
    rw [hw]
    rfl
  | IndexedIndirectAddress =>
    obtain ⟨a, c', hf, halt, hwf⟩ := fetch_indexed_indirect_address_spec cpu h
    obtain ⟨w, hw, _⟩ := read_8_total c'.memory_controller hwf.1 a halt
    refine ⟨w, c', ?_, hwf⟩
    show (cpu.fetch_indexed_indirect_address >>= fun p => _) = _
    rw [hf]
    show c'.memory_controller.read_8 a >>= _ = _
    rw [hw]
    rfl
  | IndexedPointer =>
    obtain ⟨w, hw, _⟩ :=
      read_8_total cpu.memory_controller h.1 cpu.get_pointer_indexed_address
        (get_pointer_indexed_address_lt cpu)
    refine ⟨w, cpu, ?_, h⟩
    show cpu.memory_controller.read_8 cpu.get_pointer_indexed_address >>= _ = _
    rw [hw]
    rfl
  | IndirectPointer =>
    obtain ⟨a, hg, halt⟩ := get_pointer_indirect_address_spec cpu h
    obtain ⟨w, hw, _⟩ := read_8_total cpu.memory_controller h.1 a halt
    refine ⟨w, cpu, ?_, h⟩
    show (cpu.get_pointer_indirect_address >>= fun a => _) = _
    rw [hg]
    show cpu.memory_controller.read_8 a >>= _ = _
    rw [hw]
    rfl
  | IndirectIndexedPointer =>
    obtain ⟨a, hg, halt⟩ := get_pointer_indirect_indexed_address_spec cpu h
    obtain ⟨w, hw, _⟩ := read_8_total cpu.memory_controller h.1 a halt
    refine ⟨w, cpu, ?_, h⟩
    show (cpu.get_pointer_indirect_indexed_address >>= fun a => _) = _
    rw [hg]
    show cpu.memory_controller.read_8 a >>= _ = _
    rw [hw]
    rfl
  | IndexedIndirectPointer =>
    obtain ⟨a, hg, halt⟩ := get_pointer_indexed_indirect_address_spec cpu h
    obtain ⟨w, hw, _⟩ := read_8_total cpu.memory_controller h.1 a halt
    refine ⟨w, cpu, ?_, h⟩
    show (cpu.get_pointer_indexed_indirect_address >>= fun a => _) = _
    rw [hg]
    show cpu.memory_controller.read_8 a >>= _ = _
    rw [hw]
    rfl

end VM

namespace VM

/-! ## Generic totality of the destination-commit shapes -/

/-- A 16-bit store through a fetch-style address helper succeeds. -/
lemma dest_write16_f_total (f : CPU → Option (Nat × CPU))
    (hf : ∀ c : CPU, c.WF → ∃ a c', f c = some (a, c') ∧ a < 0x10000 ∧ c'.WF)
    (cpu : CPU) (v : Nat) (h : cpu.WF) :
    (do
      let (destination_address, cpu) ← f cpu
      let mc ← cpu.memory_controller.write_16 destination_address v
      some { cpu with memory_controller := mc } : Option CPU).isSome := by
  obtain ⟨a, c', hfc, halt, hwf⟩ := hf cpu h
  obtain ⟨mc', hmc⟩ := write_16_total c'.memory_controller hwf.1 a halt v
  rw [hfc]
  show (c'.memory_controller.write_16 a v >>= fun mc =>
    (some { c' with memory_controller := mc } : Option CPU)).isSome = true
  rw [hmc]
  rfl

/-- An 8-bit store through a fetch-style address helper succeeds. -/
lemma dest_write8_f_total (f : CPU → Option (Nat × CPU))
    (hf : ∀ c : CPU, c.WF → ∃ a c', f c = some (a, c') ∧ a < 0x10000 ∧ c'.WF)
    (cpu : CPU) (v : Nat) (h : cpu.WF) :
    (do
      let (destination_address, cpu) ← f cpu
      let mc ← cpu.memory_controller.write_8 destination_address v
      some { cpu with memory_controller := mc } : Option CPU).isSome := by
  obtain ⟨a, c', hfc, halt, hwf⟩ := hf cpu h
  obtain ⟨mc', hmc⟩ := write_8_total c'.memory_controller hwf.1 a halt v
  rw [hfc]
  show (c'.memory_controller.write_8 a v >>= fun mc =>
    (some { c' with memory_controller := mc } : Option CPU)).isSome = true
  rw [hmc]
  rfl

/-- A 16-bit store through a pointer-style address helper succeeds. -/
lemma dest_write16_p_total (g : CPU → Option Nat)
    (hg : ∀ c : CPU, c.WF → ∃ a, g c = some a ∧ a < 0x10000)
    (cpu : CPU) (v : Nat) (h : cpu.WF) :
    (do
      let destination_address ← g cpu
      let mc ← cpu.memory_controller.write_16 destination_address v
      some { cpu with memory_controller := mc } : Option CPU).isSome := by
  obtain ⟨a, hgc, halt⟩ := hg cpu h
  obtain ⟨mc', hmc⟩ := write_16_total cpu.memory_controller h.1 a halt v
  rw [hgc]
  show (cpu.memory_controller.write_16 a v >>= fun mc =>
    (some { cpu with memory_controller := mc } : Option CPU)).isSome = true
  rw [hmc]
  rfl

/-- An 8-bit store through a pointer-style address helper succeeds. -/
lemma dest_write8_p_total (g : CPU → Option Nat)
    (hg : ∀ c : CPU, c.WF → ∃ a, g c = some a ∧ a < 0x10000)
    (cpu : CPU) (v : Nat) (h : cpu.WF) :
    (do
      let destination_address ← g cpu
      let mc ← cpu.memory_controller.write_8 destination_address v
      some { cpu with memory_controller := mc } : Option CPU).isSome := by
  obtain ⟨a, hgc, halt⟩ := hg cpu h
  obtain ⟨mc', hmc⟩ := write_8_total cpu.memory_controller h.1 a halt v
  rw [hgc]
  show (cpu.memory_controller.write_8 a v >>= fun mc =>
    (some { cpu with memory_controller := mc } : Option CPU)).isSome = true
  rw [hmc]
  rfl

/-- A 16-bit store at a pure 16-bit address succeeds. -/
lemma dest_write16_pure_total (cpu : CPU) (a v : Nat) (ha : a < 0x10000) (h : cpu.WF) :
    ((cpu.memory_controller.write_16 a v).bind
      (fun mc => some { cpu with memory_controller := mc })).isSome := by
  obtain ⟨mc', hmc⟩ := write_16_total cpu.memory_controller h.1 a ha v
  rw [hmc]
  rfl

/-- An 8-bit store at a pure 16-bit address succeeds. -/
lemma dest_write8_pure_total (cpu : CPU) (a v : Nat) (ha : a < 0x10000) (h : cpu.WF) :
    ((cpu.memory_controller.write_8 a v).bind
      (fun mc => some { cpu with memory_controller := mc })).isSome := by
  obtain ⟨mc', hmc⟩ := write_8_total cpu.memory_controller h.1 a ha v
  rw [hmc]
  rfl

end VM

namespace VM

/-- A 16-bit read-modify-write through a fetch-style address helper
succeeds for any well-formedness-preserving ALU operation. -/
lemma dest_rmw16_f_total (f : CPU → Option (Nat × CPU))
    (hf : ∀ c : CPU, c.WF → ∃ a c', f c = some (a, c') ∧ a < 0x10000 ∧ c'.WF)
    (alu : CPU → Nat → Nat → Bool → Nat × CPU)
    (halu : ∀ (c : CPU) (l r : Nat) (b : Bool), c.WF → (alu c l r b).2.WF)
    (cpu : CPU) (v : Nat) (h : cpu.WF) :
    (do
      let (destination_address, cpu) ← f cpu
      let current ← cpu.memory_controller.read_16 destination_address
      let (r, cpu) := alu cpu current v cpu.get_carry_flag
      let mc ← cpu.memory_controller.write_16 destination_address r
      some { cpu with memory_controller := mc } : Option CPU).isSome := by
  obtain ⟨a, c', hfc, halt, hwf⟩ := hf cpu h
  obtain ⟨cur, hcur, _⟩ := read_16_total c'.memory_controller hwf.1 a halt
  rcases hAlu : alu c' cur v c'.get_carry_flag with ⟨r0, c2⟩
  have hwf2 : c2.WF := by
    have hx := halu c' cur v c'.get_carry_flag hwf
    rw [hAlu] at hx
    exact hx
  obtain ⟨mc', hmc⟩ := write_16_total c2.memory_controller hwf2.1 a halt r0
  rw [hfc]
  show (c'.memory_controller.read_16 a >>= fun current =>
    match alu c' current v c'.get_carry_flag with
    | (r, cpu) => cpu.memory_controller.write_16 a r >>= fun mc =>
        (some { cpu with memory_controller := mc } : Option CPU)).isSome = true
  rw [hcur]
  show (match alu c' cur v c'.get_carry_flag with
    | (r, cpu) => cpu.memory_controller.write_16 a r >>= fun mc =>
        (some { cpu with memory_controller := mc } : Option CPU)).isSome = true
  rw [hAlu]
  show (c2.memory_controller.write_16 a r0 >>= fun mc =>
    (some { c2 with memory_controller := mc } : Option CPU)).isSome = true
  rw [hmc]
  rfl

/-- An 8-bit read-modify-write through a fetch-style address helper
succeeds. -/
lemma dest_rmw8_f_total (f : CPU → Option (Nat × CPU))
    (hf : ∀ c : CPU, c.WF → ∃ a c', f c = some (a, c') ∧ a < 0x10000 ∧ c'.WF)
    (alu : CPU → Nat → Nat → Bool → Nat × CPU)
    (halu : ∀ (c : CPU) (l r : Nat) (b : Bool), c.WF → (alu c l r b).2.WF)
    (cpu : CPU) (v : Nat) (h : cpu.WF) :
    (do
      let (destination_address, cpu) ← f cpu
      let current ← cpu.memory_controller.read_8 destination_address
      let (r, cpu) := alu cpu current v cpu.get_carry_flag
      let mc ← cpu.memory_controller.write_8 destination_address r
      some { cpu with memory_controller := mc } : Option CPU).isSome := by
  obtain ⟨a, c', hfc, halt, hwf⟩ := hf cpu h
  obtain ⟨cur, hcur, _⟩ := read_8_total c'.memory_controller hwf.1 a halt
  rcases hAlu : alu c' cur v c'.get_carry_flag with ⟨r0, c2⟩
  have hwf2 : c2.WF := by
    have hx := halu c' cur v c'.get_carry_flag hwf
    rw [hAlu] at hx
    exact hx
  obtain ⟨mc', hmc⟩ := write_8_total c2.memory_controller hwf2.1 a halt r0
  rw [hfc]
  show (c'.memory_controller.read_8 a >>= fun current =>
    match alu c' current v c'.get_carry_flag with
    | (r, cpu) => cpu.memory_controller.write_8 a r >>= fun mc =>
        (some { cpu with memory_controller := mc } : Option CPU)).isSome = true
  rw [hcur]
  show (match alu c' cur v c'.get_carry_flag with
    | (r, cpu) => cpu.memory_controller.write_8 a r >>= fun mc =>
        (some { cpu with memory_controller := mc } : Option CPU)).isSome = true
  rw [hAlu]
  show (c2.memory_controller.write_8 a r0 >>= fun mc =>
    (some { c2 with memory_controller := mc } : Option CPU)).isSome = true
  rw [hmc]
  rfl

/-- A 16-bit read-modify-write through a pointer-style address helper
succeeds. -/
lemma dest_rmw16_p_total (g : CPU → Option Nat)
    (hg : ∀ c : CPU, c.WF → ∃ a, g c = some a ∧ a < 0x10000)
    (alu : CPU → Nat → Nat → Bool → Nat × CPU)
    (halu : ∀ (c : CPU) (l r : Nat) (b : Bool), c.WF → (alu c l r b).2.WF)
    (cpu : CPU) (v : Nat) (h : cpu.WF) :
    (do
      let destination_address ← g cpu
      let current ← cpu.memory_controller.read_16 destination_address
      let (r, cpu) := alu cpu current v cpu.get_carry_flag
      let mc ← cpu.memory_controller.write_16 destination_address r
      some { cpu with memory_controller := mc } : Option CPU).isSome := by
  obtain ⟨a, hgc, halt⟩ := hg cpu h
  obtain ⟨cur, hcur, _⟩ := read_16_total cpu.memory_controller h.1 a halt
  rcases hAlu : alu cpu cur v cpu.get_carry_flag with ⟨r0, c2⟩
  have hwf2 : c2.WF := by
    have hx := halu cpu cur v cpu.get_carry_flag h
    rw [hAlu] at hx
    exact hx
  obtain ⟨mc', hmc⟩ := write_16_total c2.memory_controller hwf2.1 a halt r0
  rw [hgc]
  show (cpu.memory_controller.read_16 a >>= fun current =>
    match alu cpu current v cpu.get_carry_flag with
    | (r, cpu) => cpu.memory_controller.write_16 a r >>= fun mc =>
        (some { cpu with memory_controller := mc } : Option CPU)).isSome = true
  rw [hcur]
  show (match alu cpu cur v cpu.get_carry_flag with
    | (r, cpu) => cpu.memory_controller.write_16 a r >>= fun mc =>
        (some { cpu with memory_controller := mc } : Option CPU)).isSome = true
  rw [hAlu]
  show (c2.memory_controller.write_16 a r0 >>= fun mc =>
    (some { c2 with memory_controller := mc } : Option CPU)).isSome = true
  rw [hmc]
  rfl

/-- An 8-bit read-modify-write through a pointer-style address helper
succeeds. -/
lemma dest_rmw8_p_total (g : CPU → Option Nat)
    (hg : ∀ c : CPU, c.WF → ∃ a, g c = some a ∧ a < 0x10000)
    (alu : CPU → Nat → Nat → Bool → Nat × CPU)
    (halu : ∀ (c : CPU) (l r : Nat) (b : Bool), c.WF → (alu c l r b).2.WF)
    (cpu : CPU) (v : Nat) (h : cpu.WF) :
    (do
      let destination_address ← g cpu
      let current ← cpu.memory_controller.read_8 destination_address
      let (r, cpu) := alu cpu current v cpu.get_carry_flag
      let mc ← cpu.memory_controller.write_8 destination_address r
      some { cpu with memory_controller := mc } : Option CPU).isSome := by
  obtain ⟨a, hgc, halt⟩ := hg cpu h
  obtain ⟨cur, hcur, _⟩ := read_8_total cpu.memory_controller h.1 a halt
  rcases hAlu : alu cpu cur v cpu.get_carry_flag with ⟨r0, c2⟩
  have hwf2 : c2.WF := by
    have hx := halu cpu cur v cpu.get_carry_flag h
    rw [hAlu] at hx
    exact hx
  obtain ⟨mc', hmc⟩ := write_8_total c2.memory_controller hwf2.1 a halt r0
  rw [hgc]
  show (cpu.memory_controller.read_8 a >>= fun current =>
    match alu cpu current v cpu.get_carry_flag with
    | (r, cpu) => cpu.memory_controller.write_8 a r >>= fun mc =>
        (some { cpu with memory_controller := mc } : Option CPU)).isSome = true
  rw [hcur]
  show (match alu cpu cur v cpu.get_carry_flag with
    | (r, cpu) => cpu.memory_controller.write_8 a r >>= fun mc =>
        (some { cpu with memory_controller := mc } : Option CPU)).isSome = true
  rw [hAlu]
  show (c2.memory_controller.write_8 a r0 >>= fun mc =>
    (some { c2 with memory_controller := mc } : Option CPU)).isSome = true
  rw [hmc]
  rfl

/-- A 16-bit read-modify-write at a pure 16-bit address succeeds. -/
lemma dest_rmw16_pure_total (a : Nat) (ha : a < 0x10000)
    (alu : CPU → Nat → Nat → Bool → Nat × CPU)
    (halu : ∀ (c : CPU) (l r : Nat) (b : Bool), c.WF → (alu c l r b).2.WF)
    (cpu : CPU) (v : Nat) (h : cpu.WF) :
    (do
      let current ← cpu.memory_controller.read_16 a
      let (r, cpu) := alu cpu current v cpu.get_carry_flag
      let mc ← cpu.memory_controller.write_16 a r
      some { cpu with memory_controller := mc } : Option CPU).isSome := by
  obtain ⟨cur, hcur, _⟩ := read_16_total cpu.memory_controller h.1 a ha
  rcases hAlu : alu cpu cur v cpu.get_carry_flag with ⟨r0, c2⟩
  have hwf2 : c2.WF := by
    have hx := halu cpu cur v cpu.get_carry_flag h
    rw [hAlu] at hx
    exact hx
  obtain ⟨mc', hmc⟩ := write_16_total c2.memory_controller hwf2.1 a ha r0
  rw [hcur]
  show (match alu cpu cur v cpu.get_carry_flag with
    | (r, cpu) => cpu.memory_controller.write_16 a r >>= fun mc =>
        (some { cpu with memory_controller := mc } : Option CPU)).isSome = true
  rw [hAlu]
  show (c2.memory_controller.write_16 a r0 >>= fun mc =>
    (some { c2 with memory_controller := mc } : Option CPU)).isSome = true
  rw [hmc]
  rfl

/-- An 8-bit read-modify-write at a pure 16-bit address succeeds. -/
lemma dest_rmw8_pure_total (a : Nat) (ha : a < 0x10000)
    (alu : CPU → Nat → Nat → Bool → Nat × CPU)
    (halu : ∀ (c : CPU) (l r : Nat) (b : Bool), c.WF → (alu c l r b).2.WF)
    (cpu : CPU) (v : Nat) (h : cpu.WF) :
    (do
      let current ← cpu.memory_controller.read_8 a
      let (r, cpu) := alu cpu current v cpu.get_carry_flag
      let mc ← cpu.memory_controller.write_8 a r
      some { cpu with memory_controller := mc } : Option CPU).isSome := by
  obtain ⟨cur, hcur, _⟩ := read_8_total cpu.memory_controller h.1 a ha
  rcases hAlu : alu cpu cur v cpu.get_carry_flag with ⟨r0, c2⟩
  have hwf2 : c2.WF := by
    have hx := halu cpu cur v cpu.get_carry_flag h
    rw [hAlu] at hx
    exact hx
  obtain ⟨mc', hmc⟩ := write_8_total c2.memory_controller hwf2.1 a ha r0
  rw [hcur]
  show (match alu cpu cur v cpu.get_carry_flag with
    | (r, cpu) => cpu.memory_controller.write_8 a r >>= fun mc =>
        (some { cpu with memory_controller := mc } : Option CPU)).isSome = true
  rw [hAlu]
  show (c2.memory_controller.write_8 a r0 >>= fun mc =>
    (some { c2 with memory_controller := mc } : Option CPU)).isSome = true
  rw [hmc]
  rfl

end VM

namespace VM

/-- `execute_mov16` never panics on a well-formed CPU. -/
lemma execute_mov16_total (cpu : CPU) (h : cpu.WF) (destination source : Location) :
    (cpu.execute_mov16 destination source).isSome := by
  obtain ⟨v, c1, hsv, hwf1⟩ := source_value16_spec cpu h source
  have hwf2 : (c1.set_flags_from_value16 v).WF := set_flags16_WF c1 v hwf1
  unfold CPU.execute_mov16
  rw [hsv]
  cases destination with
  | Immediate => rfl
  | A => rfl
  | B => rfl
  | C => rfl
  | D => rfl
  | Idx => rfl
  | Idy => rfl
  | Address =>
    exact dest_write16_f_total CPU.fetch_address fetch_address_spec
      (c1.set_flags_from_value16 v) v hwf2
  | IndexedAddress =>
    exact dest_write16_f_total CPU.fetch_indexed_address fetch_indexed_address_spec
      (c1.set_flags_from_value16 v) v hwf2
  | IndirectAddress =>
    exact dest_write16_f_total CPU.fetch_indirect_address fetch_indirect_address_spec
      (c1.set_flags_from_value16 v) v hwf2
  | IndirectIndexedAddress =>
    exact dest_write16_f_total CPU.fetch_indirect_indexed_address
      fetch_indirect_indexed_address_spec (c1.set_flags_from_value16 v) v hwf2
  | IndexedIndirectAddress =>
    exact dest_write16_f_total CPU.fetch_indexed_indirect_address
      fetch_indexed_indirect_address_spec (c1.set_flags_from_value16 v) v hwf2
  | IndexedPointer =>
    exact dest_write16_pure_total (c1.set_flags_from_value16 v)
      (c1.set_flags_from_value16 v).get_pointer_indexed_address v
      (get_pointer_indexed_address_lt _) hwf2
  | IndirectPointer =>
    exact dest_write16_p_total CPU.get_pointer_indirect_address
      get_pointer_indirect_address_spec (c1.set_flags_from_value16 v) v hwf2
  | IndirectIndexedPointer =>
    exact dest_write16_p_total CPU.get_pointer_indirect_indexed_address
      get_pointer_indirect_indexed_address_spec (c1.set_flags_from_value16 v) v hwf2
  | IndexedIndirectPointer =>
    exact dest_write16_p_total CPU.get_pointer_indexed_indirect_address
      get_pointer_indexed_indirect_address_spec (c1.set_flags_from_value16 v) v hwf2

/-- `execute_mov8` never panics on a well-formed CPU. -/
lemma execute_mov8_total (cpu : CPU) (h : cpu.WF) (lo_hi : Bool)
    (destination source : Location) :
    (cpu.execute_mov8 lo_hi destination source).isSome := by
  obtain ⟨v, c1, hsv, hwf1⟩ := source_value8_spec cpu h lo_hi source
  have hwf2 : (c1.set_flags_from_value8 v).WF := set_flags8_WF c1 v hwf1
  unfold CPU.execute_mov8
  rw [hsv]
  cases destination with
  | Immediate => rfl
  | A => cases lo_hi <;> rfl
  | B => cases lo_hi <;> rfl
  | C => cases lo_hi <;> rfl
  | D => cases lo_hi <;> rfl
  | Idx => cases lo_hi <;> rfl
  | Idy => cases lo_hi <;> rfl
  | Address =>
    exact dest_write8_f_total CPU.fetch_address fetch_address_spec
      (c1.set_flags_from_value8 v) v hwf2
  | IndexedAddress =>
    exact dest_write8_f_total CPU.fetch_indexed_address fetch_indexed_address_spec
      (c1.set_flags_from_value8 v) v hwf2
  | IndirectAddress =>
    exact dest_write8_f_total CPU.fetch_indirect_address fetch_indirect_address_spec
      (c1.set_flags_from_value8 v) v hwf2
  | IndirectIndexedAddress =>
    exact dest_write8_f_total CPU.fetch_indirect_indexed_address
      fetch_indirect_indexed_address_spec (c1.set_flags_from_value8 v) v hwf2
  | IndexedIndirectAddress =>
    exact dest_write8_f_total CPU.fetch_indexed_indirect_address
      fetch_indexed_indirect_address_spec (c1.set_flags_from_value8 v) v hwf2
  | IndexedPointer =>
    exact dest_write8_pure_total (c1.set_flags_from_value8 v)
      (c1.set_flags_from_value8 v).get_pointer_indexed_address v
      (get_pointer_indexed_address_lt _) hwf2
  | IndirectPointer =>
    exact dest_write8_p_total CPU.get_pointer_indirect_address
      get_pointer_indirect_address_spec (c1.set_flags_from_value8 v) v hwf2
  | IndirectIndexedPointer =>
    exact dest_write8_p_total CPU.get_pointer_indirect_indexed_address
      get_pointer_indirect_indexed_address_spec (c1.set_flags_from_value8 v) v hwf2
  | IndexedIndirectPointer =>
    exact dest_write8_p_total CPU.get_pointer_indexed_indirect_address
      get_pointer_indexed_indirect_address_spec (c1.set_flags_from_value8 v) v hwf2

end VM

namespace VM

/-- A destructured ALU result committed to a register is always `some`. -/
lemma match_pair_isSome (e : Nat × CPU) (k : Nat → CPU → CPU) :
    (match e with | (r, c) => some (k r c) : Option CPU).isSome := by
  rcases e with ⟨r, c⟩
  rfl

/-- `execute_adc16` never panics on a well-formed CPU. -/
lemma execute_adc16_total (cpu : CPU) (h : cpu.WF) (destination source : Location) :
    (cpu.execute_adc16 destination source).isSome := by
  obtain ⟨v, c1, hsv, hwf1⟩ := source_value16_spec cpu h source
  unfold CPU.execute_adc16
  rw [hsv]
  cases destination with
  | Immediate => rfl
  | A =>
    exact match_pair_isSome (c1.add_with_carry16 c1.a v c1.get_carry_flag)
      (fun r c => { c with a := r })
  | B =>
    exact match_pair_isSome (c1.add_with_carry16 c1.b v c1.get_carry_flag)
      (fun r c => { c with b := r })
  | C =>
    exact match_pair_isSome (c1.add_with_carry16 c1.c v c1.get_carry_flag)
      (fun r c => { c with c := r })
  | D =>
    exact match_pair_isSome (c1.add_with_carry16 c1.d v c1.get_carry_flag)
      (fun r c => { c with d := r })
  | Idx =>
    exact match_pair_isSome (c1.add_with_carry16 c1.index_x v c1.get_carry_flag)
      (fun r c => { c with index_x := r })
  | Idy =>
    exact match_pair_isSome (c1.add_with_carry16 c1.index_y v c1.get_carry_flag)
      (fun r c => { c with index_y := r })
  | Address =>
    exact dest_rmw16_f_total CPU.fetch_address fetch_address_spec
      CPU.add_with_carry16 add16_WF c1 v hwf1
  | IndexedAddress =>
    exact dest_rmw16_f_total CPU.fetch_indexed_address fetch_indexed_address_spec
      CPU.add_with_carry16 add16_WF c1 v hwf1
  | IndirectAddress =>
    exact dest_rmw16_f_total CPU.fetch_indirect_address fetch_indirect_address_spec
      CPU.add_with_carry16 add16_WF c1 v hwf1
  | IndirectIndexedAddress =>
    exact dest_rmw16_f_total CPU.fetch_indirect_indexed_address
      fetch_indirect_indexed_address_spec CPU.add_with_carry16 add16_WF c1 v hwf1
  | IndexedIndirectAddress =>
    exact dest_rmw16_f_total CPU.fetch_indexed_indirect_address
      fetch_indexed_indirect_address_spec CPU.add_with_carry16 add16_WF c1 v hwf1
  | IndexedPointer =>
    exact dest_rmw16_pure_total c1.get_pointer_indexed_address
      (get_pointer_indexed_address_lt c1) CPU.add_with_carry16 add16_WF c1 v hwf1
  | IndirectPointer =>
    exact dest_rmw16_p_total CPU.get_pointer_indirect_address
      get_pointer_indirect_address_spec CPU.add_with_carry16 add16_WF c1 v hwf1
  | IndirectIndexedPointer =>
    exact dest_rmw16_p_total CPU.get_pointer_indirect_indexed_address
      get_pointer_indirect_indexed_address_spec CPU.add_with_carry16 add16_WF c1 v hwf1
  | IndexedIndirectPointer =>
    exact dest_rmw16_p_total CPU.get_pointer_indexed_indirect_address
      get_pointer_indexed_indirect_address_spec CPU.add_with_carry16 add16_WF c1 v hwf1

/-- `execute_adc8` never panics on a well-formed CPU. -/
lemma execute_adc8_total (cpu : CPU) (h : cpu.WF) (lo_hi : Bool)
    (destination source : Location) :
    (cpu.execute_adc8 lo_hi destination source).isSome := by
  obtain ⟨v, c1, hsv, hwf1⟩ := source_value8_spec cpu h lo_hi source
  unfold CPU.execute_adc8
  rw [hsv]
  cases destination with
  | Immediate => rfl
  | A =>
    exact match_pair_isSome (c1.add_with_carry8 (c1.a % 0x100) v c1.get_carry_flag)
      (fun r c => if lo_hi then c.set_ah r else c.set_al r)
  | B =>
    exact match_pair_isSome (c1.add_with_carry8 (c1.b % 0x100) v c1.get_carry_flag)
      (fun r c => if lo_hi then c.set_bh r else c.set_bl r)
  | C =>
    exact match_pair_isSome (c1.add_with_carry8 (c1.c % 0x100) v c1.get_carry_flag)
      (fun r c => if lo_hi then c.set_ch r else c.set_cl r)
  | D =>
    exact match_pair_isSome (c1.add_with_carry8 (c1.d % 0x100) v c1.get_carry_flag)
      (fun r c => if lo_hi then c.set_dh r else c.set_dl r)
  | Idx =>
    exact match_pair_isSome (c1.add_with_carry8 (c1.index_x % 0x100) v c1.get_carry_flag)
      (fun r c => if lo_hi then c.set_idxh r else c.set_idxl r)
  | Idy =>
    exact match_pair_isSome (c1.add_with_carry8 (c1.index_y % 0x100) v c1.get_carry_flag)
      (fun r c => if lo_hi then c.set_idyh r else c.set_idyl r)
  | Address =>
    exact dest_rmw8_f_total CPU.fetch_address fetch_address_spec
      CPU.add_with_carry8 add8_WF c1 v hwf1
  | IndexedAddress =>
    exact dest_rmw8_f_total CPU.fetch_indexed_address fetch_indexed_address_spec
      CPU.add_with_carry8 add8_WF c1 v hwf1
  | IndirectAddress =>
    exact dest_rmw8_f_total CPU.fetch_indirect_address fetch_indirect_address_spec
      CPU.add_with_carry8 add8_WF c1 v hwf1
  | IndirectIndexedAddress =>
    exact dest_rmw8_f_total CPU.fetch_indirect_indexed_address
      fetch_indirect_indexed_address_spec CPU.add_with_carry8 add8_WF c1 v hwf1
  | IndexedIndirectAddress =>
    exact dest_rmw8_f_total CPU.fetch_indexed_indirect_address
      fetch_indexed_indirect_address_spec CPU.add_with_carry8 add8_WF c1 v hwf1
  | IndexedPointer =>
    exact dest_rmw8_pure_total c1.get_pointer_indexed_address
      (get_pointer_indexed_address_lt c1) CPU.add_with_carry8 add8_WF c1 v hwf1
  | IndirectPointer =>
    exact dest_rmw8_p_total CPU.get_pointer_indirect_address
      get_pointer_indirect_address_spec CPU.add_with_carry8 add8_WF c1 v hwf1
  | IndirectIndexedPointer =>
    exact dest_rmw8_p_total CPU.get_pointer_indirect_indexed_address
      get_pointer_indirect_indexed_address_spec CPU.add_with_carry8 add8_WF c1 v hwf1
  | IndexedIndirectPointer =>
    exact dest_rmw8_p_total CPU.get_pointer_indexed_indirect_address
      get_pointer_indexed_indirect_address_spec CPU.add_with_carry8 add8_WF c1 v hwf1

end VM

namespace VM

/-- `execute_sbc16` never panics on a well-formed CPU. -/
lemma execute_sbc16_total (cpu : CPU) (h : cpu.WF) (destination source : Location) :
    (cpu.execute_sbc16 destination source).isSome := by
  obtain ⟨v, c1, hsv, hwf1⟩ := source_value16_spec cpu h source
  unfold CPU.execute_sbc16
  rw [hsv]
  cases destination with
  | Immediate => rfl
  | A =>
    exact match_pair_isSome (c1.subtract_with_carry16 c1.a v c1.get_carry_flag)
      (fun r c => { c with a := r })
  | B =>
    exact match_pair_isSome (c1.subtract_with_carry16 c1.b v c1.get_carry_flag)
      (fun r c => { c with b := r })
  | C =>
    exact match_pair_isSome (c1.subtract_with_carry16 c1.c v c1.get_carry_flag)
      (fun r c => { c with c := r })
  | D =>
    exact match_pair_isSome (c1.subtract_with_carry16 c1.d v c1.get_carry_flag)
      (fun r c => { c with d := r })
  | Idx =>
    exact match_pair_isSome (c1.subtract_with_carry16 c1.index_x v c1.get_carry_flag)
      (fun r c => { c with index_x := r })
  | Idy =>
    exact match_pair_isSome (c1.subtract_with_carry16 c1.index_y v c1.get_carry_flag)
      (fun r c => { c with index_y := r })
  | Address =>
    exact dest_rmw16_f_total CPU.fetch_address fetch_address_spec
      CPU.subtract_with_carry16 sub16_WF c1 v hwf1
  | IndexedAddress =>
    exact dest_rmw16_f_total CPU.fetch_indexed_address fetch_indexed_address_spec
      CPU.subtract_with_carry16 sub16_WF c1 v hwf1
  | IndirectAddress =>
    exact dest_rmw16_f_total CPU.fetch_indirect_address fetch_indirect_address_spec
      CPU.subtract_with_carry16 sub16_WF c1 v hwf1
  | IndirectIndexedAddress =>
    exact dest_rmw16_f_total CPU.fetch_indirect_indexed_address
      fetch_indirect_indexed_address_spec CPU.subtract_with_carry16 sub16_WF c1 v hwf1
  | IndexedIndirectAddress =>
    exact dest_rmw16_f_total CPU.fetch_indexed_indirect_address
      fetch_indexed_indirect_address_spec CPU.subtract_with_carry16 sub16_WF c1 v hwf1
  | IndexedPointer =>
    exact dest_rmw16_pure_total c1.get_pointer_indexed_address
      (get_pointer_indexed_address_lt c1) CPU.subtract_with_carry16 sub16_WF c1 v hwf1
  | IndirectPointer =>
    exact dest_rmw16_p_total CPU.get_pointer_indirect_address
      get_pointer_indirect_address_spec CPU.subtract_with_carry16 sub16_WF c1 v hwf1
  | IndirectIndexedPointer =>
    exact dest_rmw16_p_total CPU.get_pointer_indirect_indexed_address
      get_pointer_indirect_indexed_address_spec CPU.subtract_with_carry16 sub16_WF c1 v hwf1
  | IndexedIndirectPointer =>
    exact dest_rmw16_p_total CPU.get_pointer_indexed_indirect_address
      get_pointer_indexed_indirect_address_spec CPU.subtract_with_carry16 sub16_WF c1 v hwf1

/-- `execute_sbc8` never panics on a well-formed CPU. -/
lemma execute_sbc8_total (cpu : CPU) (h : cpu.WF) (lo_hi : Bool)
    (destination source : Location) :
    (cpu.execute_sbc8 lo_hi destination source).isSome := by
  obtain ⟨v, c1, hsv, hwf1⟩ := source_value8_spec cpu h lo_hi source
  unfold CPU.execute_sbc8
  rw [hsv]
  cases destination with
  | Immediate => rfl
  | A =>
    exact match_pair_isSome (c1.subtract_with_carry8 (c1.a % 0x100) v c1.get_carry_flag)
      (fun r c => if lo_hi then c.set_ah r else c.set_al r)
  | B =>
    exact match_pair_isSome (c1.subtract_with_carry8 (c1.b % 0x100) v c1.get_carry_flag)
      (fun r c => if lo_hi then c.set_bh r else c.set_bl r)
  | C =>
    exact match_pair_isSome (c1.subtract_with_carry8 (c1.c % 0x100) v c1.get_carry_flag)
      (fun r c => if lo_hi then c.set_ch r else c.set_cl r)
  | D =>
    exact match_pair_isSome (c1.subtract_with_carry8 (c1.d % 0x100) v c1.get_carry_flag)
      (fun r c => if lo_hi then c.set_dh r else c.set_dl r)
  | Idx =>
    exact match_pair_isSome (c1.subtract_with_carry8 (c1.index_x % 0x100) v c1.get_carry_flag)
      (fun r c => if lo_hi then c.set_idxh r else c.set_idxl r)
  | Idy =>
    exact match_pair_isSome (c1.subtract_with_carry8 (c1.index_y % 0x100) v c1.get_carry_flag)
      (fun r c => if lo_hi then c.set_idyh r else c.set_idyl r)
  | Address =>
    exact dest_rmw8_f_total CPU.fetch_address fetch_address_spec
      CPU.subtract_with_carry8 sub8_WF c1 v hwf1
  | IndexedAddress =>
    exact dest_rmw8_f_total CPU.fetch_indexed_address fetch_indexed_address_spec
      CPU.subtract_with_carry8 sub8_WF c1 v hwf1
  | IndirectAddress =>
    exact dest_rmw8_f_total CPU.fetch_indirect_address fetch_indirect_address_spec
      CPU.subtract_with_carry8 sub8_WF c1 v hwf1
  | IndirectIndexedAddress =>
    exact dest_rmw8_f_total CPU.fetch_indirect_indexed_address
      fetch_indirect_indexed_address_spec CPU.subtract_with_carry8 sub8_WF c1 v hwf1
  | IndexedIndirectAddress =>
    exact dest_rmw8_f_total CPU.fetch_indexed_indirect_address
      fetch_indexed_indirect_address_spec CPU.subtract_with_carry8 sub8_WF c1 v hwf1
  | IndexedPointer =>
    exact dest_rmw8_pure_total c1.get_pointer_indexed_address
      (get_pointer_indexed_address_lt c1) CPU.subtract_with_carry8 sub8_WF c1 v hwf1
  | IndirectPointer =>
    exact dest_rmw8_p_total CPU.get_pointer_indirect_address
      get_pointer_indirect_address_spec CPU.subtract_with_carry8 sub8_WF c1 v hwf1
  | IndirectIndexedPointer =>
    exact dest_rmw8_p_total CPU.get_pointer_indirect_indexed_address
      get_pointer_indirect_indexed_address_spec CPU.subtract_with_carry8 sub8_WF c1 v hwf1
  | IndexedIndirectPointer =>
    exact dest_rmw8_p_total CPU.get_pointer_indexed_indirect_address
      get_pointer_indexed_indirect_address_spec CPU.subtract_with_carry8 sub8_WF c1 v hwf1

end VM

namespace VM

/-- The destination decoder's `panic!` arm is unreachable: the shifted
field is at most `0xF`. -/
lemma get_destination_total (instruction : Nat) :
    ∃ d, Location.get_destination_from_instruction instruction = some d := by
  have hx : (instruction &&& 0xF000) >>> 12 < 16 := by
    have h1 : instruction &&& 0xF000 ≤ 0xF000 := Nat.and_le_right
    rw [Nat.shiftRight_eq_div_pow]
    omega
  unfold Location.get_destination_from_instruction
  set k := (instruction &&& 0xF000) >>> 12 with hk
  interval_cases k <;> exact ⟨_, rfl⟩

/-- The source decoder's `panic!` arm is unreachable. -/
lemma get_source_total (instruction : Nat) :
    ∃ d, Location.get_source_from_instruction instruction = some d := by
  have hx : (instruction &&& 0x0F00) >>> 8 < 16 := by
    have h1 : instruction &&& 0x0F00 ≤ 0x0F00 := Nat.and_le_right
    rw [Nat.shiftRight_eq_div_pow]
    omega
  unfold Location.get_source_from_instruction
  set k := (instruction &&& 0x0F00) >>> 8 with hk
  interval_cases k <;> exact ⟨_, rfl⟩

/-- `reset` never panics on a well-formed CPU. -/
lemma reset_total (cpu : CPU) (h : cpu.WF) : (cpu.reset).isSome := by
  obtain ⟨v, hv, _⟩ :=
    read_16_total cpu.memory_controller.reset (mc_reset_WF cpu.memory_controller h.1)
      RESET_VECTOR (by decide)
  unfold CPU.reset
  dsimp only
  rw [hv]
  rfl

/-- C7 counterexample: with the wait latch set, the IRQ vector table base
`0xFFFF` and IRQ number 1, the dispatch address `0xFFFF + 2 = 0x10001`
indexes block 16 — past the block table — and `process` panics. -/
theorem process_waiting_irq_panics :
    exMcWait.read_16 IRQ_VECTOR = some 0xFFFF ∧
    exCpuWait.waiting_for_interrupt = true ∧
    exCpuWait.process false (some 1) = none := by
  refine ⟨by rfl, by rfl, by rfl⟩

/-- C7 (amended): with the wait latch clear — every instruction-processing
path — `process` never panics for any `u16` register values and byte
memory contents on a well-formed controller; all address arithmetic in
the embedding is modulo `0x10000`.  (The waiting-state IRQ dispatch can
panic, as the counterexample shows.) -/
theorem process_no_panic :
    ∀ (cpu : CPU) (nmi : Bool) (irq : Option Nat),
      cpu.WF → cpu.waiting_for_interrupt = false →
      (cpu.process nmi irq).isSome := by
  intro cpu nmi irq h hwait
  unfold CPU.process
  cases henable : cpu.enable with
  | false =>
    rfl
  | true =>
    rw [hwait]
    rw [if_neg (by decide), if_neg (by decide)]
    obtain ⟨instr, c1, hf, _, hwf1⟩ := fetch16_spec cpu h
    rw [hf]
    simp only [Option.bind_eq_bind, Option.some_bind]
    obtain ⟨dst, hdst⟩ := get_destination_total instr
    obtain ⟨src, hsrc⟩ := get_source_total instr
    rw [hdst]
    simp only [Option.bind_eq_bind, Option.some_bind]
    rw [hsrc]
    simp only [Option.bind_eq_bind, Option.some_bind]
    split
    · split
      · exact execute_mov8_total c1 hwf1 _ dst src
      · exact execute_mov16_total c1 hwf1 dst src
    · split
      · exact execute_adc8_total c1 hwf1 _ dst src
      · exact execute_adc16_total c1 hwf1 dst src
    · split
      · exact execute_sbc8_total c1 hwf1 _ dst src
      · exact execute_sbc16_total c1 hwf1 dst src
    · rfl
    · exact reset_total c1 hwf1
    · rfl

/-- Witness for the amended C7: one instruction executes without panic on
an enabled, non-waiting CPU over an empty bus. -/
theorem process_no_panic_witness :
    (exCpuA.process false none).isSome :=
  process_no_panic exCpuA false none ⟨new_WF, by decide, by decide, by decide⟩ rfl

end VM
